import Mathlib

/-!
# Wildfire dashboard: distance, risk score, closest wildfire, markers, overlay

A shallow embedding of the logic of
`src/Map-main/src/components/introductionPage.jsx`: the pure functions, and the
view as a state with one step function per handler.

Number model.  JavaScript numbers are IEEE doubles; here they are idealised as
exact numbers of an ordered field `α` (evaluated at `ℚ`, and at `ℝ` wherever the
trigonometric functions of `Math` are involved), so rounding error of the
double arithmetic is not modelled.  A value that is not a finite number
(`undefined`, `null`, `NaN`) is kept apart: a record field is an `Option`, a
coordinate is a `Coord`.  Where the rounding of the doubles decides the result,
the risk score is also given over a parametric arithmetic (`JsArith`), and the
end of `calculateDistance` with the `NaN` of `Math.sqrt` (`distanceFromA`).
-/

namespace Wildfire

/-! ## Data model -/

/-- One entry of a `location` array, as the code can observe it: a finite
number (`typeof x === "number"`), a number that is not finite (`NaN`,
`Infinity`), or a value of another type, which arithmetic coerces to the number
`coerced` (`none` when the coercion gives `NaN`, as for `undefined`). -/
inductive Coord (α : Type) where
  | num (x : α)
  | nonFinite
  | nonNumber (coerced : Option α)

/-- The `location` field of a record: absent (or another falsy value), a truthy
value that is not an array, or an array of entries of any length. -/
inductive JsLocation (α : Type) where
  | missing
  | notArray
  | array (entries : List (Coord α))

/-- A wildfire record (spec section 3, `WildfireRecord`), with the two fields
the view adds to a copy of it: `distance` (`findClosestWildfire`) and
`markerType` (the selection handlers).  A numeric field is `none` when the
record does not carry it. -/
structure WildfireRecord (α : Type) where
  location : JsLocation α
  temperature : Option α
  humidity : Option α
  wind_speed : Option α
  wind_direction : Option α
  rain : Option α
  clouds : Option α
  wind_gust : Option α
  locationName : Option String
  distance : Option α
  markerType : Option String

/-- The `currentLocation` state once set: `{ latitude, longitude }`. -/
structure CurrentLocation (α : Type) where
  latitude : α
  longitude : α

/-! ## RiskEstimator (`calculateDangerPercentage`, lines 790-836) -/

section Risk

variable {α : Type} [LinearOrderedField α] [FloorRing α]

/-- The expression `field || fallback` on a numeric field: a missing field and
the number `0` are falsy, every other number is truthy. -/
def jsOr (field : Option α) (fallback : α) : α :=
  match field with
  | some v => if v = 0 then fallback else v
  | none => fallback

/-- The function `Math.round`: the nearest integer, a tie going up. -/
def mathRound (x : α) : ℤ := ⌊x + 1 / 2⌋

/-- The weights object of `calculateDangerPercentage` (lines 801-807). -/
structure Weights (α : Type) where
  distance : α
  temperature : α
  windSpeed : α
  humidity : α
  cloudCover : α

/-- The constant `weights`. -/
def weights : Weights α :=
  { distance := 0.4, temperature := 0.2, windSpeed := 0.2, humidity := 0.1, cloudCover := 0.1 }

/-- The function `calculateDangerPercentage` (lines 790-836) in exact
arithmetic.  The state `currentLocation` it reads is the first argument; `none`
is `null`.  The doubles of the code can round a sum that is exactly a `.5` tie
to just below it; `dangerPercentageOver` keeps the operations as a
parameter. -/
def calculateDangerPercentage (currentLocation : Option (CurrentLocation α))
    (wildfire : Option (WildfireRecord α)) : ℤ :=
  match wildfire, currentLocation with
  | none, _ => 0
  | _, none => 0
  | some wildfire, some _ =>
    let distance := jsOr wildfire.distance 0
    let temperature := jsOr wildfire.temperature 0
    let windSpeed := jsOr wildfire.wind_speed 0
    let humidity := jsOr wildfire.humidity 0
    let cloudCover := jsOr wildfire.clouds 0
    let distanceScore := max 0 (100 - distance * 2)
    let temperatureScore := min 100 (temperature / 50 * 100)
    let windSpeedScore := min 100 (windSpeed / 30 * 100)
    let humidityScore := max 0 (100 - humidity)
    let cloudCoverScore := max 0 (100 - cloudCover)
    let dangerScore :=
      weights.distance * distanceScore +
      weights.temperature * temperatureScore +
      weights.windSpeed * windSpeedScore +
      weights.humidity * humidityScore +
      weights.cloudCover * cloudCoverScore
    mathRound dangerScore

end Risk

/-- A record with no field set. -/
def emptyRecord (α : Type) : WildfireRecord α :=
  { location := .missing, temperature := none, humidity := none, wind_speed := none,
    wind_direction := none, rain := none, clouds := none, wind_gust := none,
    locationName := none, distance := none, markerType := none }

/-! ## Spec wording of the risk formula -/

section RiskSpec

variable {α : Type} [LinearOrderedField α] [FloorRing α]

/-- The risk formula in the words of spec section 4.1: each factor is read with
a missing field counting as 0, the five sub-scores are weighted and summed, and
the sum is rounded to the nearest integer.  Humidity and clouds enter as
`100 - humidity` and `100 - clouds`. -/
def riskFormulaSpec (wildfire : WildfireRecord α) : ℤ :=
  round (0.4 * max 0 (100 - 2 * wildfire.distance.getD 0)
    + 0.2 * min 100 (wildfire.temperature.getD 0 / 50 * 100)
    + 0.2 * min 100 (wildfire.wind_speed.getD 0 / 30 * 100)
    + 0.1 * (100 - wildfire.humidity.getD 0)
    + 0.1 * (100 - wildfire.clouds.getD 0))

end RiskSpec

/-! ## The risk score over the arithmetic of the runtime

The score again, with the number operations as a parameter, so that what is
proved of it holds of the IEEE doubles the code runs on, roundings and ties
included. -/

/-- The number operations `calculateDangerPercentage` uses.  For the doubles of
the code, `lit` is the double nearest to a decimal literal, `add`, `sub`, `mul`
and `div` are the correctly rounded operations, infinities and `NaN` included,
`max`, `min` and `round` are `Math.max`, `Math.min` and `Math.round`; the
product of two doubles does not depend on their order.  The two zeros `+0` and
`-0` are one value, and a field of a record is never `NaN`. -/
structure JsArith (ν : Type) where
  lit : ℚ → ν
  add : ν → ν → ν
  sub : ν → ν → ν
  mul : ν → ν → ν
  div : ν → ν → ν
  max : ν → ν → ν
  min : ν → ν → ν
  round : ν → ν
  mul_comm : ∀ a b, mul a b = mul b a

section RiskOver

variable {ν : Type} [DecidableEq ν]

/-- The expression `field || fallback` over the arithmetic `A`. -/
def jsOrOver (A : JsArith ν) (field : Option ν) (fallback : ν) : ν :=
  match field with
  | some v => if v = A.lit 0 then fallback else v
  | none => fallback

/-- The constant `weights` over the arithmetic `A`. -/
def weightsOver (A : JsArith ν) : Weights ν :=
  { distance := A.lit 0.4, temperature := A.lit 0.2, windSpeed := A.lit 0.2,
    humidity := A.lit 0.1, cloudCover := A.lit 0.1 }

/-- The function `calculateDangerPercentage` (lines 790-836) over the
arithmetic `A`, operation by operation in the order of the source. -/
def dangerPercentageOver (A : JsArith ν) (currentLocation : Option (CurrentLocation ν))
    (wildfire : Option (WildfireRecord ν)) : ν :=
  match wildfire, currentLocation with
  | none, _ => A.lit 0
  | _, none => A.lit 0
  | some wildfire, some _ =>
    let distance := jsOrOver A wildfire.distance (A.lit 0)
    let temperature := jsOrOver A wildfire.temperature (A.lit 0)
    let windSpeed := jsOrOver A wildfire.wind_speed (A.lit 0)
    let humidity := jsOrOver A wildfire.humidity (A.lit 0)
    let cloudCover := jsOrOver A wildfire.clouds (A.lit 0)
    let distanceScore := A.max (A.lit 0) (A.sub (A.lit 100) (A.mul distance (A.lit 2)))
    let temperatureScore :=
      A.min (A.lit 100) (A.mul (A.div temperature (A.lit 50)) (A.lit 100))
    let windSpeedScore := A.min (A.lit 100) (A.mul (A.div windSpeed (A.lit 30)) (A.lit 100))
    let humidityScore := A.max (A.lit 0) (A.sub (A.lit 100) humidity)
    let cloudCoverScore := A.max (A.lit 0) (A.sub (A.lit 100) cloudCover)
    let dangerScore :=
      A.add
        (A.add
          (A.add
            (A.add (A.mul (weightsOver A).distance distanceScore)
              (A.mul (weightsOver A).temperature temperatureScore))
            (A.mul (weightsOver A).windSpeed windSpeedScore))
          (A.mul (weightsOver A).humidity humidityScore))
        (A.mul (weightsOver A).cloudCover cloudCoverScore)
    A.round dangerScore

/-- The formula of the amended claim over the arithmetic `A`:
`round(0.4*max(0, 100 - 2*distance) + 0.2*min(100, (temperature/50)*100)
+ 0.2*min(100, (wind_speed/30)*100) + 0.1*max(0, 100 - humidity)
+ 0.1*max(0, 100 - clouds))`, summed from left to right, a missing field
counting as 0. -/
def riskFormulaClampedOver (A : JsArith ν) (wildfire : WildfireRecord ν) : ν :=
  A.round
    (A.add
      (A.add
        (A.add
          (A.add
            (A.mul (A.lit 0.4)
              (A.max (A.lit 0)
                (A.sub (A.lit 100) (A.mul (A.lit 2) (wildfire.distance.getD (A.lit 0))))))
            (A.mul (A.lit 0.2)
              (A.min (A.lit 100)
                (A.mul (A.div (wildfire.temperature.getD (A.lit 0)) (A.lit 50)) (A.lit 100)))))
          (A.mul (A.lit 0.2)
            (A.min (A.lit 100)
              (A.mul (A.div (wildfire.wind_speed.getD (A.lit 0)) (A.lit 30)) (A.lit 100)))))
        (A.mul (A.lit 0.1)
          (A.max (A.lit 0) (A.sub (A.lit 100) (wildfire.humidity.getD (A.lit 0))))))
      (A.mul (A.lit 0.1)
        (A.max (A.lit 0) (A.sub (A.lit 100) (wildfire.clouds.getD (A.lit 0))))))

end RiskOver

/-- The exact arithmetic of an ordered field, in which no operation rounds:
the arithmetic of `calculateDangerPercentage` above. -/
def exactArith (α : Type) [LinearOrderedField α] [FloorRing α] : JsArith α :=
  { lit := fun q => (q : α)
    add := fun a b => a + b
    sub := fun a b => a - b
    mul := fun a b => a * b
    div := fun a b => a / b
    max := fun a b => max a b
    min := fun a b => min a b
    round := fun x => ((mathRound x : ℤ) : α)
    mul_comm := fun a b => mul_comm a b }

/-! ## Distance calculation (`calculateDistance`, lines 776-788)

The functions of `Math` are the real functions they approximate. -/

/-- The function `Math.atan2(y, x)`: the angle in `(-π, π]` of the point
`(x, y)`, by the usual case split on the quadrant, and `0` at the origin. -/
noncomputable def mathAtan2 (y x : ℝ) : ℝ :=
  if 0 < x then Real.arctan (y / x)
  else if x < 0 then
    if 0 ≤ y then Real.arctan (y / x) + Real.pi else Real.arctan (y / x) - Real.pi
  else if 0 < y then Real.pi / 2
  else if y < 0 then -(Real.pi / 2)
  else 0

/-- The function `calculateDistance` (lines 776-788) in real arithmetic,
arguments in degrees.  The doubles of the code can round `a` above 1 for
antipodal points, where the code returns `NaN`; see `distanceFromA`. -/
noncomputable def calculateDistance (lat1 lon1 lat2 lon2 : ℝ) : ℝ :=
  let R : ℝ := 6371
  let dLat := (lat2 - lat1) * (Real.pi / 180)
  let dLon := (lon2 - lon1) * (Real.pi / 180)
  let a :=
    Real.sin (dLat / 2) * Real.sin (dLat / 2) +
      Real.cos (lat1 * (Real.pi / 180)) *
        Real.cos (lat2 * (Real.pi / 180)) *
        Real.sin (dLon / 2) *
        Real.sin (dLon / 2)
  let c := 2 * mathAtan2 (Real.sqrt a) (Real.sqrt (1 - a))
  R * c

/-- The intermediate value `a` of `calculateDistance` (lines 780-785). -/
noncomputable def haversineA (lat1 lon1 lat2 lon2 : ℝ) : ℝ :=
  Real.sin ((lat2 - lat1) * (Real.pi / 180) / 2) * Real.sin ((lat2 - lat1) * (Real.pi / 180) / 2) +
    Real.cos (lat1 * (Real.pi / 180)) *
      Real.cos (lat2 * (Real.pi / 180)) *
      Real.sin ((lon2 - lon1) * (Real.pi / 180) / 2) *
      Real.sin ((lon2 - lon1) * (Real.pi / 180) / 2)

/-- The haversine distance in the words of spec section 4.2 and of the claim:
`2 * 6371 * arcsin (sqrt h)` with
`h = sin² (dLat / 2) + cos lat1 * cos lat2 * sin² (dLon / 2)`, the angles
converted from degrees to radians. -/
noncomputable def haversineSpec (lat1 lon1 lat2 lon2 : ℝ) : ℝ :=
  let rad : ℝ → ℝ := fun deg => deg * Real.pi / 180
  let h := Real.sin (rad (lat2 - lat1) / 2) ^ 2
    + Real.cos (rad lat1) * Real.cos (rad lat2) * Real.sin (rad (lon2 - lon1) / 2) ^ 2
  2 * 6371 * Real.arcsin (Real.sqrt h)

/-- The function `Math.sqrt` with its `NaN`, written `none`: the root of a
negative number is `NaN`. -/
noncomputable def mathSqrtNaN (x : ℝ) : Option ℝ :=
  if x < 0 then none else some (Real.sqrt x)

/-- Lines 786-787 of `calculateDistance` on the value `a` that lines 780-785
have computed, with the `NaN` of the roots: `atan2`, the doubling and the
product with `R` give `NaN` as soon as one root is `NaN`. -/
noncomputable def distanceFromA (a : ℝ) : Option ℝ :=
  match mathSqrtNaN a, mathSqrtNaN (1 - a) with
  | some y, some x => some (6371 * (2 * mathAtan2 y x))
  | _, _ => none

/-! ## Closest-wildfire selection (`findClosestWildfire`, lines 838-863) -/

/-- The number an entry of a `location` array becomes in arithmetic; `none` is
a value that arithmetic turns into `NaN` (a non-finite coordinate makes every
distance computed from it `NaN`). -/
def Coord.toNumber {α : Type} : Coord α → Option α
  | .num x => some x
  | .nonFinite => none
  | .nonNumber coerced => coerced

/-- Entry `i` of a destructured array, as a number: an index past the end
reads `undefined`, which is `NaN` in arithmetic. -/
def destructure {α : Type} (entries : List (Coord α)) (i : Nat) : Option α :=
  (entries.get? i).bind Coord.toNumber

/-- What `findClosestWildfire` returns: `undefined` from the bare `return`,
the initial `null` of `closest`, or a record. -/
inductive ClosestResult (α : Type) where
  | undefined
  | null
  | found (closest : WildfireRecord α)

/-- The body of the `forEach` callback (lines 845-858) on the loop state
`(closest, minDistance)`; `minDistance` starts at `Infinity`, here `⊤`.  When a
coordinate is not a number the distance is `NaN`, and `NaN < minDistance` is
false.  The distance is that of real arithmetic: the `NaN` that the doubles give
for some points antipodal to the user (see `distanceFromA`) is not modelled. -/
noncomputable def scanStep (currentLocation : CurrentLocation ℝ)
    (state : Option (WildfireRecord ℝ) × WithTop ℝ) (wildfire : WildfireRecord ℝ) :
    Option (WildfireRecord ℝ) × WithTop ℝ :=
  match wildfire.location with
  | .array entries =>
    match destructure entries 0, destructure entries 1 with
    | some longitude, some latitude =>
      let distance := calculateDistance currentLocation.latitude currentLocation.longitude
        latitude longitude
      if (distance : WithTop ℝ) < state.2 then
        (some { wildfire with distance := some distance }, (distance : WithTop ℝ))
      else state
    | _, _ => state
  | _ => state

/-- The function `findClosestWildfire` (lines 838-863): the value it returns,
which is also the value it stores with `setClosestWildfire`.  The states
`currentLocation` and `wildfires` it reads are the arguments. -/
noncomputable def findClosestWildfire (currentLocation : Option (CurrentLocation ℝ))
    (wildfires : List (WildfireRecord ℝ)) : ClosestResult ℝ :=
  match currentLocation with
  | none => .undefined
  | some loc =>
    if wildfires.length = 0 then .undefined
    else
      match (wildfires.foldl (scanStep loc) (none, ⊤)).1 with
      | none => .null
      | some closest => .found closest

/-- The distance `findClosestWildfire` computes for a record, when it computes
one that is a number: the `location` is an array and its first two entries are
numbers in arithmetic. -/
noncomputable def scannedDistance (currentLocation : CurrentLocation ℝ)
    (wildfire : WildfireRecord ℝ) : Option ℝ :=
  match wildfire.location with
  | .array entries =>
    match destructure entries 0, destructure entries 1 with
    | some longitude, some latitude =>
      some (calculateDistance currentLocation.latitude currentLocation.longitude
        latitude longitude)
    | _, _ => none
  | _ => none

/-- A valid coordinate pair in the words of the spec (sections 4.3 and 4.4): the
`location` is an array of exactly two finite numbers `[longitude, latitude]`,
the latitude in `[-90, 90]` and the longitude in `[-180, 180]`. -/
def validCoordinatePair {α : Type} [LinearOrderedField α] (wildfire : WildfireRecord α) :
    Prop :=
  ∃ longitude latitude, wildfire.location = .array [.num longitude, .num latitude]
    ∧ -90 ≤ latitude ∧ latitude ≤ 90 ∧ -180 ≤ longitude ∧ longitude ≤ 180

/-! ## The view: its state, refs and the map widget

One record holds the React state of `IntroductionPage`, its refs, and what the
code observes of the map widget `mapRef.current`. -/

/-- A marker on the map (lines 297-299), with the record its click listener
closes over. -/
structure Marker (α : Type) where
  item : WildfireRecord α

/-- A call of `addMarkersInBatches` suspended at the `await` of line 330: its
local `markersToAdd` and `batches`, and the loop counter `i`. -/
structure RenderPass (α : Type) where
  markersToAdd : List (WildfireRecord α)
  batches : Nat
  i : Nat

/-- A listener registered on the map for `moveend`: the handler `initializeMap`
registers (lines 373-377), or the `handleMoveEnd` of one marker click (lines
310-319); `id` tells the closures of different clicks apart. -/
inductive Listener (α : Type) where
  | viewport
  | openPanel (id : Nat) (item : WildfireRecord α)

/-- The id of a map layer or source: the templates `spread-point-${Date.now()}`
and `spread-area-${Date.now()}` of lines 156-157, or any other id. -/
inductive LayerId where
  | spreadPoint (time : Nat)
  | spreadArea (time : Nat)
  | other (name : String)
  deriving DecidableEq

/-- The state of the view. -/
structure View (α : Type) where
  /-- The state `wildfires`. -/
  wildfires : List (WildfireRecord α)
  /-- The ref `markerDataRef.current.wildfires`. -/
  markerData : List (WildfireRecord α)
  /-- Whether `mapRef.current` is set. -/
  mapReady : Bool
  /-- The state `isAddingMarkers`. -/
  isAddingMarkers : Bool
  /-- The state `visibleMarkerCounts.wildfires`. -/
  visibleMarkerCounts : Nat
  /-- The ref `markersRef.current`. -/
  markers : List (Marker α)
  /-- The ref `visibleBoundsRef.current`, as the answer of its `contains` to a
  longitude and a latitude; `none` is `null`. -/
  visibleBounds : Option (α → α → Bool)
  /-- The calls of `addMarkersInBatches` waiting on their timer. -/
  pending : List (RenderPass α)
  /-- The state `selectedMarker`. -/
  selectedMarker : Option (WildfireRecord α)
  /-- The state `showPopup`. -/
  showPopup : Bool
  /-- The state `isSpreadLoading`. -/
  isSpreadLoading : Bool
  /-- The ref `spreadLayersRef.current`. -/
  spreadLayers : List LayerId
  /-- Map widget: what `getBounds()` returns now, as the answer of its
  `contains`. -/
  mapBounds : α → α → Bool
  /-- Map widget: whether creating and adding the marker of a record (lines
  297-299) throws. -/
  markerThrows : WildfireRecord α → Bool
  /-- Map widget: the ids of its layers. -/
  mapLayers : List LayerId
  /-- Map widget: the ids of its sources. -/
  mapSources : List LayerId
  /-- Map widget: the listeners registered for `moveend`, in order. -/
  moveendListeners : List (Listener α)
  /-- The number of marker clicks so far, which numbers their listeners. -/
  nextListener : Nat

/-! ## MarkerRenderer (`isInBounds`, `addMarkers`, lines 85-111 and 243-343) -/

section Render

variable {α : Type} [LinearOrderedField α]

/-- The function `isInBounds` (lines 85-111); `visibleBoundsRef.current` is the
first argument. -/
def isInBounds (visibleBounds : Option (α → α → Bool)) (location : JsLocation α) : Bool :=
  match visibleBounds with
  | none => false
  | some bounds =>
    match location with
    | .array [lng, lat] =>
      match lng, lat with
      | .num lng, .num lat =>
        if lat < -90 ∨ lat > 90 ∨ lng < -180 ∨ lng > 180 then false
        else bounds lng lat
      | _, _ => false
    | _ => false

/-- The predicate of `data.filter` in `addMarkersInBatches` (lines 255-281).  An
entry that is not of type number, `NaN`, or an infinity fails the test of lines
266-275. -/
def markerFilter (visibleBounds : Option (α → α → Bool)) (item : WildfireRecord α) : Bool :=
  match item.location with
  | .array [lng, lat] =>
    match lng, lat with
    | .num lng, .num lat =>
      if lat < -90 ∨ lat > 90 ∨ lng < -180 ∨ lng > 180 then false
      else isInBounds visibleBounds item.location
    | _, _ => false
  | _ => false

/-- The constant `batchSize` (line 285). -/
def batchSize : Nat := 100

/-- The method `slice(start, end)` of an array, for `start ≤ end`. -/
def jsSlice {β : Type} (l : List β) (start stop : Nat) : List β :=
  (l.drop start).take (stop - start)

/-- The `batch` of loop index `i` (lines 289-291). -/
def batchOf {β : Type} (markersToAdd : List β) (i : Nat) : List β :=
  let start := i * batchSize
  let stop := min (start + batchSize) markersToAdd.length
  jsSlice markersToAdd start stop

/-- The number `batches` (line 286). -/
def batchCount (length : Nat) : Nat := ⌈(length : ℚ) / (batchSize : ℚ)⌉₊

/-- The body of `batch.forEach` (lines 293-328) on the marker list: the marker
is pushed unless its creation throws, which the `catch` only logs.  The items
come out of the filter, so their `location` destructures. -/
def addMarker (markerThrows : WildfireRecord α → Bool) (markers : List (Marker α))
    (item : WildfireRecord α) : List (Marker α) :=
  if markerThrows item then markers else markers ++ [{ item := item }]

/-- One turn of the `for` loop of `addMarkersInBatches` (lines 289-328), up to
its `await`. -/
def runBatch (s : View α) (p : RenderPass α) : View α :=
  { s with markers := (batchOf p.markersToAdd p.i).foldl (addMarker s.markerThrows) s.markers }

/-- The function `addMarkers` (lines 243-343) up to the first `await` of the
pass it starts, or to the end of the pass when there is no batch.  The argument
`isAddingMarkers` is the constant of the render whose closure is called. -/
def addMarkers (isAddingMarkers : Bool) (s : View α) : View α :=
  if !s.mapReady || isAddingMarkers then s
  else
    let s := { s with isAddingMarkers := true, visibleBounds := some s.mapBounds, markers := [] }
    let markersToAdd := s.markerData.filter (markerFilter s.visibleBounds)
    let p : RenderPass α :=
      { markersToAdd := markersToAdd, batches := batchCount markersToAdd.length, i := 0 }
    if p.i < p.batches then
      { runBatch s p with pending := s.pending ++ [p] }
    else
      { s with isAddingMarkers := false, visibleMarkerCounts := markersToAdd.length }

/-- The timer of the pending pass number `k` fires: the loop goes on with the
next batch, or ends, and then the `then` callback of lines 335-338 runs. -/
def resumePass (k : Nat) (s : View α) : View α :=
  match s.pending.get? k with
  | none => s
  | some p =>
    let p := { p with i := p.i + 1 }
    if p.i < p.batches then
      { runBatch s p with pending := s.pending.set k p }
    else
      { s with
        pending := s.pending.eraseIdx k
        isAddingMarkers := false
        visibleMarkerCounts := p.markersToAdd.length }

/-- The value of `isAddingMarkers` in the first render: `useState(false)` (line
50). -/
def firstRenderIsAddingMarkers : Bool := false

/-- A handler of `moveend` or `zoomend` as written (lines 373-383), for the
render whose constant `isAddingMarkers` it closes over. -/
def viewportHandler (isAddingMarkers : Bool) (s : View α) : View α :=
  if !isAddingMarkers then addMarkers isAddingMarkers s else s

/-- The handlers the map really holds.  `initializeMap` runs once, from the
effect with the empty dependency list (lines 386-418), so the handlers it
registers and the `addMarkers` they call are closures of the first render: the
`isAddingMarkers` they read is that render's constant, not the current state. -/
def onViewportEvent (s : View α) : View α :=
  viewportHandler firstRenderIsAddingMarkers s

/-- A record qualifies for a marker, in the words of spec section 4.4: its
`location` is an array of exactly two finite numbers `[longitude, latitude]`,
the latitude in `[-90, 90]`, the longitude in `[-180, 180]`, inside the captured
bounds. -/
def qualifies (bounds : α → α → Bool) (item : WildfireRecord α) : Prop :=
  ∃ longitude latitude, item.location = .array [.num longitude, .num latitude]
    ∧ -90 ≤ latitude ∧ latitude ≤ 90 ∧ -180 ≤ longitude ∧ longitude ≤ 180
    ∧ bounds longitude latitude = true

end Render

/-! ## Wildfire feed (`fetchWildfires`, lines 71-83) -/

/-- What a `fetch` gives: the request throws, or a response arrives with its
`ok` flag and a body, `none` when `response.json()` throws. -/
inductive FetchResult (β : Type) where
  | networkError
  | response (ok : Bool) (body : Option β)

/-- The function `fetchWildfires` (lines 71-83), given what the feed answers. -/
def fetchWildfires {α : Type} (answer : FetchResult (List (WildfireRecord α)))
    (s : View α) : View α :=
  match answer with
  | .networkError => s
  | .response ok body =>
    if !ok then s
    else
      match body with
      | none => s
      | some data => { s with wildfires := data, markerData := data }

/-! ## Marker selection (click listener, lines 301-322) -/

section Selection

variable {α : Type} [LinearOrderedField α]

/-- The click listener of a marker (lines 301-322): `flyTo` commands the camera
and changes nothing in the view; one `handleMoveEnd` is registered. -/
def markerClick (item : WildfireRecord α) (s : View α) : View α :=
  { s with
    moveendListeners := s.moveendListeners ++ [.openPanel s.nextListener item]
    nextListener := s.nextListener + 1 }

/-- Whether a listener is the `handleMoveEnd` numbered `id`. -/
def Listener.isPanel (id : Nat) : Listener α → Bool
  | .viewport => false
  | .openPanel id' _ => id' = id

/-- The closure `handleMoveEnd` of a click (lines 310-319). -/
def handleMoveEnd (id : Nat) (item : WildfireRecord α) (s : View α) : View α :=
  { s with
    selectedMarker := some { item with markerType := some "wildfire" }
    showPopup := true
    moveendListeners := s.moveendListeners.filter (fun l => !l.isPanel id) }

/-- One listener called for `moveend`. -/
def runListener (s : View α) (l : Listener α) : View α :=
  match l with
  | .viewport => onViewportEvent s
  | .openPanel id item => handleMoveEnd id item s

/-- The map fires `moveend`: it calls the listeners registered at that moment,
in order. -/
def fireMoveend (s : View α) : View α :=
  s.moveendListeners.foldl runListener s

end Selection

/-! ## SpreadOverlay refresh (`fetchSpreadData`, lines 113-241) -/

section Spread

variable {α : Type} [LinearOrderedField α]

/-- The JSON body of the spread predictor, `{latitude, longitude,
spread_radius}`, each field possibly missing. -/
structure SpreadData (α : Type) where
  latitude : Option α
  longitude : Option α
  spread_radius : Option α

/-- Truthiness of a numeric field: missing and `0` are falsy. -/
def jsTruthy (field : Option α) : Bool :=
  match field with
  | some v => v ≠ 0
  | none => false

/-- Whether an id comes from one of the two spread templates. -/
def LayerId.isSpread : LayerId → Bool
  | .spreadPoint _ => true
  | .spreadArea _ => true
  | .other _ => false

/-- The body of the `forEach` of lines 144-151: the layer and the source of
that id are removed from the map when it has them. -/
def removeSpreadLayer (s : View α) (layerId : LayerId) : View α :=
  let s := if layerId ∈ s.mapLayers then
    { s with mapLayers := s.mapLayers.filter (fun x => x ≠ layerId) } else s
  if layerId ∈ s.mapSources then
    { s with mapSources := s.mapSources.filter (fun x => x ≠ layerId) } else s

/-- The function `fetchSpreadData` (lines 113-241), given the two readings of
`Date.now()` and what the predictor answers.  The map calls `addSource` and
`addLayer` add the id to the map. -/
def fetchSpreadData (now1 now2 : Nat) (answer : FetchResult (SpreadData α))
    (s : View α) : View α :=
  if !s.mapReady || s.selectedMarker.isNone then s
  else
    match answer with
    | .networkError => { s with isSpreadLoading := false }
    | .response ok body =>
      if !ok then { s with isSpreadLoading := false }
      else
        match body with
        | none => { s with isSpreadLoading := false }
        | some data =>
          let s := s.spreadLayers.foldl removeSpreadLayer s
          let s := { s with spreadLayers := [] }
          let s :=
            if jsTruthy data.latitude && jsTruthy data.longitude then
              let spreadPointId := LayerId.spreadPoint now1
              let spreadAreaId := LayerId.spreadArea now2
              let s := { s with mapSources := s.mapSources ++ [spreadPointId] }
              let s := { s with mapSources := s.mapSources ++ [spreadAreaId] }
              let s := { s with mapLayers := s.mapLayers ++ [spreadAreaId] }
              let s := { s with mapLayers := s.mapLayers ++ [spreadPointId] }
              { s with spreadLayers := s.spreadLayers ++ [spreadPointId, spreadAreaId] }
            else s
          { s with showPopup := false, isSpreadLoading := false }

/-- The states reached from a view with no spread overlay by any sequence of
`fetchSpreadData` calls. -/
inductive SpreadReachable : View α → Prop where
  | start (s : View α) (htracked : s.spreadLayers = [])
      (hlayers : ∀ id ∈ s.mapLayers, id.isSpread = false)
      (hsources : ∀ id ∈ s.mapSources, id.isSpread = false) : SpreadReachable s
  | call (s : View α) (now1 now2 : Nat) (answer : FetchResult (SpreadData α))
      (h : SpreadReachable s) : SpreadReachable (fetchSpreadData now1 now2 answer s)

end Spread

/-- A view before anything happened: no data, no marker, the map not loaded. -/
def emptyView (α : Type) : View α :=
  { wildfires := [], markerData := [], mapReady := false, isAddingMarkers := false,
    visibleMarkerCounts := 0, markers := [], visibleBounds := none, pending := [],
    selectedMarker := none, showPopup := false, isSpreadLoading := false, spreadLayers := [],
    mapBounds := fun _ _ => false, markerThrows := fun _ => false, mapLayers := [],
    mapSources := [], moveendListeners := [], nextListener := 0 }

/-- A viewport given by its west, south, east and north edges, as the answer
of its `contains`. -/
def boxBounds {α : Type} [LinearOrderedField α] (west south east north : α) : α → α → Bool :=
  fun lng lat => decide (west ≤ lng ∧ lng ≤ east ∧ south ≤ lat ∧ lat ≤ north)

/-- A record at the given longitude and latitude, with no other field. -/
def recordAt {α : Type} (longitude latitude : α) : WildfireRecord α :=
  { emptyRecord α with location := .array [.num longitude, .num latitude] }

/-- A loaded view with three records, at (0, 0), at (50, 50) and at latitude 95,
showing the box of 10 degrees around (0, 0); nothing is rendered yet. -/
def sampleView : View ℚ :=
  { emptyView ℚ with
    mapReady := true
    wildfires := [recordAt 0 0, recordAt 50 50, recordAt 0 95]
    markerData := [recordAt 0 0, recordAt 50 50, recordAt 0 95]
    mapBounds := boxBounds (-10) (-10) 10 10 }

/-- A loaded view with a selected marker and one spread overlay drawn at time
1, next to a layer and a source of the base style. -/
def overlayView : View ℚ :=
  { emptyView ℚ with
    mapReady := true
    selectedMarker := some (recordAt 0 0)
    spreadLayers := [.spreadPoint 1, .spreadArea 1]
    mapLayers := [.other "water", .spreadArea 1, .spreadPoint 1]
    mapSources := [.other "composite", .spreadPoint 1, .spreadArea 1] }

/-- A JSON body of the spread predictor in which `latitude` is missing. -/
def bodyWithoutLatitude : SpreadData ℚ :=
  { latitude := none, longitude := some 5, spread_radius := some 100 }

/-- A JSON body of the spread predictor with its three fields. -/
def bodyWithCoordinates : SpreadData ℚ :=
  { latitude := some 45, longitude := some (-75), spread_radius := some 500 }

/-- A loaded view with a selected marker and no overlay. -/
def readyView : View ℚ :=
  { emptyView ℚ with mapReady := true, selectedMarker := some (recordAt 0 0) }

/-! ## Detail panel (`MarkerPopup`, lines 463-774) and list click (lines 1019-1053) -/

/-- The three texts under the risk bar of the detail panel (lines 561-568). -/
inductive RiskLabel where
  | low
  | moderate
  | high
  deriving DecidableEq

/-- The text of a label, as the panel prints it. -/
def RiskLabel.text : RiskLabel → String
  | .low => "Low risk. Monitor for changes."
  | .moderate => "Moderate risk. Stay informed."
  | .high => "High risk. Be prepared to evacuate."

/-- The choice of the text under the risk bar (lines 561-568). -/
def riskLabel (dangerLevel : ℤ) : RiskLabel :=
  if dangerLevel < 30 then .low
  else if dangerLevel < 70 then .moderate
  else .high

section Panel

variable {α : Type} [LinearOrderedField α] [FloorRing α]

/-- The label the detail panel shows: nothing when no marker is selected or the
panel is closed (line 468), else the label of
`calculateDangerPercentage(selectedMarker)` (line 472). -/
def markerPopupLabel (currentLocation : Option (CurrentLocation α)) (s : View α) :
    Option RiskLabel :=
  if s.selectedMarker.isNone || !s.showPopup then none
  else some (riskLabel (calculateDangerPercentage currentLocation s.selectedMarker))

end Panel

/-- The click on an entry of the wildfire list (lines 1019-1053): when the
`location` is an array of length 2 it flies the camera there and registers a
`handleMoveEnd` that is the one of a marker click, with the list's record; else
it only logs a warning. -/
def listClick {α : Type} (wildfire : WildfireRecord α) (s : View α) : View α :=
  match wildfire.location with
  | .array [_, _] =>
    { s with
      moveendListeners := s.moveendListeners ++ [.openPanel s.nextListener wildfire]
      nextListener := s.nextListener + 1 }
  | _ => s

/-- A JSON body of the spread predictor for a point on the equator: its
`latitude` is 0. -/
def bodyOnEquator : SpreadData ℚ :=
  { latitude := some 0, longitude := some 5, spread_radius := some 100 }

/-! ## Helper lemmas -/

theorem jsOr_zero_eq_getD {α : Type} [LinearOrderedField α] (field : Option α) :
    jsOr field 0 = field.getD 0 := by
  cases field with
  | none => rfl
  | some v =>
    by_cases h : v = 0
    · simp [jsOr, h]
    · simp [jsOr, h]

section RiskLemmas

variable {α : Type} [LinearOrderedField α] [FloorRing α]

theorem mathRound_eq_round (x : α) : mathRound x = round x := by
  rw [round_eq]; rfl

theorem mathRound_intCast (n : ℤ) : mathRound (n : α) = n := by
  have h : (0 : α) ≤ 1 / 2 := by norm_num
  have h' : (1 / 2 : α) < 1 := by norm_num
  unfold mathRound
  rw [Int.floor_eq_iff]
  constructor <;> linarith

/-- The score as one closed expression over the defaulted fields. -/
theorem calculateDangerPercentage_some (loc : CurrentLocation α) (w : WildfireRecord α) :
    calculateDangerPercentage (some loc) (some w) =
      mathRound (0.4 * max 0 (100 - w.distance.getD 0 * 2)
        + 0.2 * min 100 (w.temperature.getD 0 / 50 * 100)
        + 0.2 * min 100 (w.wind_speed.getD 0 / 30 * 100)
        + 0.1 * max 0 (100 - w.humidity.getD 0)
        + 0.1 * max 0 (100 - w.clouds.getD 0)) := by
  simp only [calculateDangerPercentage, weights, jsOr_zero_eq_getD]

end RiskLemmas

/-- Over any arithmetic, `field || 0` reads a missing field as 0 and any other
field as it is. -/
theorem jsOrOver_zero {ν : Type} [DecidableEq ν] (A : JsArith ν) (field : Option ν) :
    jsOrOver A field (A.lit 0) = field.getD (A.lit 0) := by
  cases field with
  | none => rfl
  | some v =>
    by_cases h : v = A.lit 0
    · simp [jsOrOver, h]
    · simp [jsOrOver, h]

/-- The score of the exact model is the score over the exact arithmetic. -/
theorem dangerPercentageOver_exact {α : Type} [LinearOrderedField α] [FloorRing α]
    (loc : Option (CurrentLocation α)) (w : Option (WildfireRecord α)) :
    dangerPercentageOver (exactArith α) loc w = ((calculateDangerPercentage loc w : ℤ) : α) := by
  have hjs : ∀ field : Option α, jsOrOver (exactArith α) field ((exactArith α).lit 0)
      = jsOr field 0 := by
    intro field
    rw [jsOrOver_zero, jsOr_zero_eq_getD]
    simp [exactArith]
  cases w with
  | none => cases loc <;> simp [dangerPercentageOver, calculateDangerPercentage, exactArith]
  | some w =>
    cases loc with
    | none => simp [dangerPercentageOver, calculateDangerPercentage, exactArith]
    | some loc =>
      simp only [dangerPercentageOver, calculateDangerPercentage, hjs, weightsOver, weights]
      simp only [exactArith]
      norm_num

/-! ## Claims on the risk score -/

section RiskClaims

variable {α : Type} [LinearOrderedField α] [FloorRing α]

/-- C1 (counterexample): with a known location, the record whose only field is
`humidity = 200` scores 50 in the code (the humidity sub-score is clamped at 0),
while the formula of the claim, with `0.1 * (100 - humidity)`, gives 40. -/
theorem C1_counterexample :
    calculateDangerPercentage (some (⟨0, 0⟩ : CurrentLocation ℚ))
        (some { emptyRecord ℚ with humidity := some 200 }) = 50
      ∧ riskFormulaSpec { emptyRecord ℚ with humidity := some 200 } = 40
      ∧ calculateDangerPercentage (some (⟨0, 0⟩ : CurrentLocation ℚ))
          (some { emptyRecord ℚ with humidity := some 200 })
        ≠ riskFormulaSpec { emptyRecord ℚ with humidity := some 200 } := by
  have hcode : calculateDangerPercentage (some (⟨0, 0⟩ : CurrentLocation ℚ))
      (some { emptyRecord ℚ with humidity := some 200 }) = 50 := by
    rw [calculateDangerPercentage_some]
    have h : (0.4 * max 0 (100 - (none : Option ℚ).getD 0 * 2)
        + 0.2 * min 100 ((none : Option ℚ).getD 0 / 50 * 100)
        + 0.2 * min 100 ((none : Option ℚ).getD 0 / 30 * 100)
        + 0.1 * max 0 (100 - (some (200 : ℚ)).getD 0)
        + 0.1 * max 0 (100 - (none : Option ℚ).getD 0) : ℚ) = ((50 : ℤ) : ℚ) := by
      norm_num
    simp only [emptyRecord]
    rw [h, mathRound_intCast]
  have hspec : riskFormulaSpec { emptyRecord ℚ with humidity := some 200 } = 40 := by
    have h : (0.4 * max 0 (100 - 2 * (none : Option ℚ).getD 0)
        + 0.2 * min 100 ((none : Option ℚ).getD 0 / 50 * 100)
        + 0.2 * min 100 ((none : Option ℚ).getD 0 / 30 * 100)
        + 0.1 * (100 - (some (200 : ℚ)).getD 0)
        + 0.1 * (100 - (none : Option ℚ).getD 0) : ℚ) = ((40 : ℤ) : ℚ) := by
      norm_num
    simp only [riskFormulaSpec, emptyRecord]
    rw [h, round_intCast]
  refine ⟨hcode, hspec, ?_⟩
  rw [hcode, hspec]
  decide

/-- C1 (amended): with a known location, the score of every record is the
rounded weighted sum in which humidity and clouds enter as
`max 0 (100 - humidity)` and `max 0 (100 - clouds)`, a missing field counting as
0, the operations being those of the runtime in the order written: this holds
over every arithmetic, that of IEEE doubles included. -/
theorem C1_danger_formula {ν : Type} [DecidableEq ν] (A : JsArith ν)
    (loc : CurrentLocation ν) (w : WildfireRecord ν) :
    dangerPercentageOver A (some loc) (some w) = riskFormulaClampedOver A w := by
  simp only [dangerPercentageOver, riskFormulaClampedOver, weightsOver, jsOrOver_zero,
    A.mul_comm (w.distance.getD (A.lit 0)) (A.lit 2)]

/-- C1 (witness): in exact arithmetic, a record with humidity 40 and clouds 25,
10 km away: the score of the exact model is the amended formula. -/
theorem C1_danger_formula_witness :
    ((calculateDangerPercentage (some (⟨45, -75⟩ : CurrentLocation ℚ))
        (some { emptyRecord ℚ with
          distance := some 10, temperature := some 30, wind_speed := some 6,
          humidity := some 40, clouds := some 25 }) : ℤ) : ℚ)
      = riskFormulaClampedOver (exactArith ℚ) { emptyRecord ℚ with
          distance := some 10, temperature := some 30, wind_speed := some 6,
          humidity := some 40, clouds := some 25 } :=
  (dangerPercentageOver_exact (some (⟨45, -75⟩ : CurrentLocation ℚ))
    (some { emptyRecord ℚ with
      distance := some 10, temperature := some 30, wind_speed := some 6,
      humidity := some 40, clouds := some 25 })).symm.trans
    (C1_danger_formula (exactArith ℚ) (⟨45, -75⟩ : CurrentLocation ℚ)
      { emptyRecord ℚ with
        distance := some 10, temperature := some 30, wind_speed := some 6,
        humidity := some 40, clouds := some 25 })

/-- C2 (failing input): with a known location, a record 80 km away at -25 °C with
no wind, humidity 100 and clouds 100 scores -10, which is not in 0..100: the
temperature sub-score has no lower clamp. -/
theorem C2_negative_score :
    calculateDangerPercentage (some (⟨45, -75⟩ : CurrentLocation ℚ))
        (some { emptyRecord ℚ with
          distance := some 80, temperature := some (-25), wind_speed := some 0,
          humidity := some 100, clouds := some 100 }) = -10 := by
  rw [calculateDangerPercentage_some]
  have h : (0.4 * max 0 (100 - (some (80 : ℚ)).getD 0 * 2)
      + 0.2 * min 100 ((some (-25 : ℚ)).getD 0 / 50 * 100)
      + 0.2 * min 100 ((some (0 : ℚ)).getD 0 / 30 * 100)
      + 0.1 * max 0 (100 - (some (100 : ℚ)).getD 0)
      + 0.1 * max 0 (100 - (some (100 : ℚ)).getD 0) : ℚ) = ((-10 : ℤ) : ℚ) := by
    norm_num
  simp only [emptyRecord]
  rw [h, mathRound_intCast]

/-- C3: with a known location, a record with distance 0, temperature at least
50, wind speed at least 30, humidity 0 and clouds 0 scores exactly 100. -/
theorem C3_max_score (loc : CurrentLocation α) (w : WildfireRecord α) (t v : α)
    (hd : w.distance = some 0) (ht : w.temperature = some t) (ht50 : 50 ≤ t)
    (hv : w.wind_speed = some v) (hv30 : 30 ≤ v)
    (hh : w.humidity = some 0) (hc : w.clouds = some 0) :
    calculateDangerPercentage (some loc) (some w) = 100 := by
  rw [calculateDangerPercentage_some, hd, ht, hv, hh, hc]
  simp only [Option.getD_some]
  have h1 : min 100 (t / 50 * 100) = 100 := min_eq_left (by linarith)
  have h2 : min 100 (v / 30 * 100) = 100 := min_eq_left (by linarith)
  have h3 : max (0 : α) (100 - 0 * 2) = 100 := by norm_num
  have h4 : max (0 : α) (100 - 0) = 100 := by norm_num
  rw [h1, h2, h3, h4]
  have h : (0.4 * 100 + 0.2 * 100 + 0.2 * 100 + 0.1 * 100 + 0.1 * 100 : α) = ((100 : ℤ) : α) := by
    norm_num
  rw [h, mathRound_intCast]

/-- C3 (witness): the record of the spec, distance 0, temperature 50, wind
speed 30, humidity 0, clouds 0. -/
theorem C3_max_score_witness :
    calculateDangerPercentage (some (⟨45, -75⟩ : CurrentLocation ℚ))
      (some { emptyRecord ℚ with
        distance := some 0, temperature := some 50, wind_speed := some 30,
        humidity := some 0, clouds := some 0 }) = 100 :=
  C3_max_score (⟨45, -75⟩ : CurrentLocation ℚ) _ 50 30 rfl rfl (by norm_num) rfl (by norm_num)
    rfl rfl

/-- C4: with a known location, a record with distance at least 50, temperature
0, wind speed 0, humidity 100 and clouds 100 scores exactly 0. -/
theorem C4_min_score (loc : CurrentLocation α) (w : WildfireRecord α) (d : α)
    (hd : w.distance = some d) (hd50 : 50 ≤ d)
    (ht : w.temperature = some 0) (hv : w.wind_speed = some 0)
    (hh : w.humidity = some 100) (hc : w.clouds = some 100) :
    calculateDangerPercentage (some loc) (some w) = 0 := by
  rw [calculateDangerPercentage_some, hd, ht, hv, hh, hc]
  simp only [Option.getD_some]
  have h1 : max 0 (100 - d * 2) = 0 := max_eq_left (by linarith)
  have h2 : min (100 : α) (0 / 50 * 100) = 0 := by norm_num
  have h3 : min (100 : α) (0 / 30 * 100) = 0 := by norm_num
  have h4 : max (0 : α) (100 - 100) = 0 := max_eq_left (by norm_num)
  rw [h1, h2, h3, h4]
  have h : (0.4 * 0 + 0.2 * 0 + 0.2 * 0 + 0.1 * 0 + 0.1 * 0 : α) = ((0 : ℤ) : α) := by
    norm_num
  rw [h, mathRound_intCast]

/-- C4 (witness): the record of the spec, distance 50, temperature 0, wind
speed 0, humidity 100, clouds 100. -/
theorem C4_min_score_witness :
    calculateDangerPercentage (some (⟨45, -75⟩ : CurrentLocation ℚ))
      (some { emptyRecord ℚ with
        distance := some 50, temperature := some 0, wind_speed := some 0,
        humidity := some 100, clouds := some 100 }) = 0 :=
  C4_min_score (⟨45, -75⟩ : CurrentLocation ℚ) _ 50 rfl (by norm_num) rfl rfl rfl rfl

/-- C5: `calculateDangerPercentage` is total, it returns a number on every
input, and that number is 0 whenever the current location is absent or the
record is absent, whatever the other argument is. -/
theorem C5_absent_gives_zero (loc : Option (CurrentLocation α))
    (w : Option (WildfireRecord α)) :
    (∃ n : ℤ, calculateDangerPercentage loc w = n)
      ∧ calculateDangerPercentage none w = 0
      ∧ calculateDangerPercentage loc none = 0 := by
  refine ⟨⟨_, rfl⟩, ?_, ?_⟩
  · cases w <;> rfl
  · cases loc <;> rfl

end RiskClaims

/-! ## Lemmas on the distance -/

theorem calculateDistance_eq_atan2 (lat1 lon1 lat2 lon2 : ℝ) :
    calculateDistance lat1 lon1 lat2 lon2 =
      6371 * (2 * mathAtan2 (Real.sqrt (haversineA lat1 lon1 lat2 lon2))
        (Real.sqrt (1 - haversineA lat1 lon1 lat2 lon2))) := rfl

/-- The value `a` lies in `[0, 1]`, whatever the four angles are. -/
theorem haversineA_bounds (lat1 lon1 lat2 lon2 : ℝ) :
    0 ≤ haversineA lat1 lon1 lat2 lon2 ∧ haversineA lat1 lon1 lat2 lon2 ≤ 1 := by
  set p := lat1 * (Real.pi / 180) with hp
  set q := lat2 * (Real.pi / 180) with hq
  set y := (lon2 - lon1) * (Real.pi / 180) / 2 with hy
  have hx : (lat2 - lat1) * (Real.pi / 180) / 2 = (q - p) / 2 := by rw [hp, hq]; ring
  have hs : Real.sin ((q - p) / 2) ^ 2 = 1 / 2 - Real.cos (q - p) / 2 := by
    rw [Real.sin_sq_eq_half_sub]; congr 2; ring_nf
  have hcs : Real.cos (q - p) = Real.cos q * Real.cos p + Real.sin q * Real.sin p :=
    Real.cos_sub q p
  have hca : Real.cos (q + p) = Real.cos q * Real.cos p - Real.sin q * Real.sin p :=
    Real.cos_add q p
  have h1 := Real.cos_le_one (q - p)
  have h2 := Real.neg_one_le_cos (q - p)
  have h3 := Real.cos_le_one (q + p)
  have h4 := Real.neg_one_le_cos (q + p)
  have hy0 : 0 ≤ Real.sin y ^ 2 := sq_nonneg _
  have hy1 : Real.sin y ^ 2 ≤ 1 := Real.sin_sq_le_one y
  have ha : haversineA lat1 lon1 lat2 lon2 =
      (1 / 2 - Real.cos (q - p) / 2)
        + (Real.cos (q - p) + Real.cos (q + p)) / 2 * Real.sin y ^ 2 := by
    unfold haversineA
    rw [hx, ← hs, hcs, hca]
    ring
  rw [ha]
  constructor
  · nlinarith [mul_nonneg hy0 (by linarith : 0 ≤ 1 + Real.cos (q + p)),
      mul_nonneg (by linarith : 0 ≤ 1 - Real.sin y ^ 2) (by linarith : 0 ≤ 1 - Real.cos (q - p))]
  · nlinarith [mul_nonneg hy0 (by linarith : 0 ≤ 1 - Real.cos (q + p)),
      mul_nonneg (by linarith : 0 ≤ 1 - Real.sin y ^ 2) (by linarith : 0 ≤ 1 + Real.cos (q - p))]

/-- On the quarter circle `atan2` is `arcsin` of the sine. -/
theorem mathAtan2_sqrt (a : ℝ) (h0 : 0 ≤ a) (h1 : a ≤ 1) :
    mathAtan2 (Real.sqrt a) (Real.sqrt (1 - a)) = Real.arcsin (Real.sqrt a) := by
  rcases eq_or_lt_of_le h1 with h | h
  · subst h
    simp [mathAtan2]
  · have hpos : 0 < Real.sqrt (1 - a) := Real.sqrt_pos.mpr (by linarith)
    have hlt : Real.sqrt a < 1 := by
      rw [Real.sqrt_lt' one_pos]; simpa using h
    have hmem : Real.sqrt a ∈ Set.Ioo (-(1 : ℝ)) 1 :=
      ⟨lt_of_lt_of_le (by norm_num) (Real.sqrt_nonneg a), hlt⟩
    rw [mathAtan2, if_pos hpos, Real.arcsin_eq_arctan hmem, Real.sq_sqrt h0]

theorem calculateDistance_eq_arcsin (lat1 lon1 lat2 lon2 : ℝ) :
    calculateDistance lat1 lon1 lat2 lon2 =
      6371 * (2 * Real.arcsin (Real.sqrt (haversineA lat1 lon1 lat2 lon2))) := by
  rw [calculateDistance_eq_atan2,
    mathAtan2_sqrt _ (haversineA_bounds lat1 lon1 lat2 lon2).1
      (haversineA_bounds lat1 lon1 lat2 lon2).2]

theorem haversineA_symm (lat1 lon1 lat2 lon2 : ℝ) :
    haversineA lat1 lon1 lat2 lon2 = haversineA lat2 lon2 lat1 lon1 := by
  have h1 : (lat1 - lat2) * (Real.pi / 180) / 2 = -((lat2 - lat1) * (Real.pi / 180) / 2) := by
    ring
  have h2 : (lon1 - lon2) * (Real.pi / 180) / 2 = -((lon2 - lon1) * (Real.pi / 180) / 2) := by
    ring
  unfold haversineA
  rw [h1, h2, Real.sin_neg, Real.sin_neg]
  ring

/-- From the origin along a meridian or along the equator, `a` is the squared
sine of half the angle. -/
theorem haversineA_from_origin (θ : ℝ) :
    haversineA 0 0 θ 0 = Real.sin (θ * (Real.pi / 180) / 2) ^ 2
      ∧ haversineA 0 0 0 θ = Real.sin (θ * (Real.pi / 180) / 2) ^ 2 := by
  constructor
  · simp [haversineA, sq]
  · simp [haversineA, sq]

/-- From the origin, `θ` degrees along a meridian or along the equator, in
either direction, are `6371 * |θ| * π / 180` kilometres, for `θ` between -180
and 180. -/
theorem calculateDistance_from_origin (θ : ℝ) (h0 : -180 ≤ θ) (h180 : θ ≤ 180) :
    calculateDistance 0 0 θ 0 = 6371 * (|θ| * (Real.pi / 180))
      ∧ calculateDistance 0 0 0 θ = 6371 * (|θ| * (Real.pi / 180)) := by
  have hpi := Real.pi_pos
  have habs : |θ| ≤ 180 := abs_le.mpr ⟨h0, h180⟩
  have hx0 : 0 ≤ |θ| * (Real.pi / 180) / 2 := by positivity
  have hx1 : |θ| * (Real.pi / 180) / 2 ≤ Real.pi / 2 := by nlinarith [abs_nonneg θ]
  have hsin : 0 ≤ Real.sin (|θ| * (Real.pi / 180) / 2) :=
    Real.sin_nonneg_of_nonneg_of_le_pi hx0 (by linarith)
  have hsq : Real.sin (θ * (Real.pi / 180) / 2) ^ 2
      = Real.sin (|θ| * (Real.pi / 180) / 2) ^ 2 := by
    rcases abs_cases θ with ⟨h, _⟩ | ⟨h, _⟩
    · rw [h]
    · rw [h, show -θ * (Real.pi / 180) / 2 = -(θ * (Real.pi / 180) / 2) by ring,
        Real.sin_neg, neg_sq]
  have key : 6371 * (2 * Real.arcsin (Real.sqrt (Real.sin (θ * (Real.pi / 180) / 2) ^ 2))) =
      6371 * (|θ| * (Real.pi / 180)) := by
    rw [hsq, Real.sqrt_sq hsin, Real.arcsin_sin (by linarith) hx1]
    ring
  constructor
  · rw [calculateDistance_eq_arcsin, (haversineA_from_origin θ).1, key]
  · rw [calculateDistance_eq_arcsin, (haversineA_from_origin θ).2, key]

/-! ## Claims on the distance -/

/-- C6: the distance from every point to itself is 0. -/
theorem C6_distance_self (lat lon : ℝ) : calculateDistance lat lon lat lon = 0 := by
  have ha : haversineA lat lon lat lon = 0 := by simp [haversineA]
  rw [calculateDistance_eq_arcsin, ha]
  simp

/-- C7: the distance is symmetric in its two points. -/
theorem C7_distance_symm (lat1 lon1 lat2 lon2 : ℝ) :
    calculateDistance lat1 lon1 lat2 lon2 = calculateDistance lat2 lon2 lat1 lon1 := by
  rw [calculateDistance_eq_atan2, calculateDistance_eq_atan2, haversineA_symm]

/-- In real arithmetic the distance is the haversine great-circle distance of
the spec on a sphere of radius 6371, `2 * 6371 * arcsin (sqrt h)`, between 0 and
`π * 6371`.  The doubles of the code can round `a` above 1, where this fails. -/
theorem calculateDistance_eq_haversineSpec (lat1 lon1 lat2 lon2 : ℝ) :
    calculateDistance lat1 lon1 lat2 lon2 = haversineSpec lat1 lon1 lat2 lon2
      ∧ 0 ≤ calculateDistance lat1 lon1 lat2 lon2
      ∧ calculateDistance lat1 lon1 lat2 lon2 ≤ Real.pi * 6371 := by
  have hA : haversineA lat1 lon1 lat2 lon2 =
      Real.sin ((lat2 - lat1) * Real.pi / 180 / 2) ^ 2
        + Real.cos (lat1 * Real.pi / 180) * Real.cos (lat2 * Real.pi / 180)
          * Real.sin ((lon2 - lon1) * Real.pi / 180 / 2) ^ 2 := by
    unfold haversineA
    ring_nf
  have h0 : 0 ≤ Real.arcsin (Real.sqrt (haversineA lat1 lon1 lat2 lon2)) :=
    Real.arcsin_nonneg.mpr (Real.sqrt_nonneg _)
  have h1 := Real.arcsin_le_pi_div_two (Real.sqrt (haversineA lat1 lon1 lat2 lon2))
  refine ⟨?_, ?_, ?_⟩
  · rw [calculateDistance_eq_arcsin, haversineSpec, ← hA]
    ring
  · rw [calculateDistance_eq_arcsin]
    positivity
  · rw [calculateDistance_eq_arcsin]
    linarith

/-- In real arithmetic `a` never exceeds 1, no root is `NaN`, and lines 786-787
give the distance of the model. -/
theorem distanceFromA_haversineA (lat1 lon1 lat2 lon2 : ℝ) :
    distanceFromA (haversineA lat1 lon1 lat2 lon2)
      = some (calculateDistance lat1 lon1 lat2 lon2) := by
  obtain ⟨h0, h1⟩ := haversineA_bounds lat1 lon1 lat2 lon2
  have h0' : ¬ haversineA lat1 lon1 lat2 lon2 < 0 := not_lt.mpr h0
  have h1' : ¬ 1 - haversineA lat1 lon1 lat2 lon2 < 0 := by linarith
  simp [distanceFromA, mathSqrtNaN, h0', h1', calculateDistance_eq_atan2]

/-- C8 (failing input): when lines 780-785 round `a` above 1, as the doubles do
for some antipodal pairs where `a` comes out as `1 + 2⁻⁵²`, the root of `1 - a`
is `NaN` and so is the distance that lines 786-787 return. -/
theorem C8_nan_beyond_one :
    distanceFromA (1 + 1 / 2 ^ 52) = none
      ∧ ∀ a : ℝ, 1 < a → distanceFromA a = none := by
  have hnan : ∀ a : ℝ, 1 < a → distanceFromA a = none := by
    intro a ha
    have h0 : ¬ a < 0 := by linarith
    have h1 : 1 - a < 0 := by linarith
    simp [distanceFromA, mathSqrtNaN, h0, h1]
  exact ⟨hnan _ (by norm_num), hnan⟩

/-! ## Lemmas on the closest-wildfire scan -/

/-- One step of the scan, in terms of the distance computed for the record. -/
theorem scanStep_eq (loc : CurrentLocation ℝ)
    (state : Option (WildfireRecord ℝ) × WithTop ℝ) (w : WildfireRecord ℝ) :
    scanStep loc state w =
      match scannedDistance loc w with
      | some d =>
        if (d : WithTop ℝ) < state.2 then
          (some { w with distance := some d }, (d : WithTop ℝ))
        else state
      | none => state := by
  unfold scanStep scannedDistance
  cases hloc : w.location with
  | missing => rfl
  | notArray => rfl
  | array entries =>
    simp only []
    generalize destructure entries 0 = lon
    generalize destructure entries 1 = lat
    cases lon <;> cases lat <;> rfl

/-- The scan from any loop state: either no record of the list is below the
running minimum and the state is unchanged, or the state ends at the first
record of the list with the least distance, which is below that minimum. -/
theorem foldl_scanStep (loc : CurrentLocation ℝ) (l : List (WildfireRecord ℝ)) :
    ∀ (c : Option (WildfireRecord ℝ)) (m : WithTop ℝ),
      (l.foldl (scanStep loc) (c, m) = (c, m)
          ∧ ∀ x ∈ l, ∀ d, scannedDistance loc x = some d → m ≤ (d : WithTop ℝ))
        ∨ ∃ pre w post d, l = pre ++ w :: post ∧ scannedDistance loc w = some d
            ∧ (d : WithTop ℝ) < m
            ∧ (∀ x ∈ pre, ∀ d', scannedDistance loc x = some d' → d < d')
            ∧ (∀ x ∈ post, ∀ d', scannedDistance loc x = some d' → d ≤ d')
            ∧ l.foldl (scanStep loc) (c, m)
                = (some { w with distance := some d }, (d : WithTop ℝ)) := by
  induction l with
  | nil =>
    intro c m
    exact Or.inl ⟨rfl, fun x hx => absurd hx (List.not_mem_nil x)⟩
  | cons x l ih =>
    intro c m
    rw [List.foldl_cons, scanStep_eq]
    cases hx : scannedDistance loc x with
    | none =>
      simp only []
      rcases ih c m with ⟨hfold, hall⟩ | ⟨pre, w, post, d, hl, hw, hdm, hpre, hpost, hfold⟩
      · refine Or.inl ⟨hfold, fun y hy d hd => ?_⟩
        rcases List.mem_cons.mp hy with rfl | hy
        · rw [hx] at hd; cases hd
        · exact hall y hy d hd
      · refine Or.inr ⟨x :: pre, w, post, d, by rw [hl]; rfl, hw, hdm, ?_, hpost, hfold⟩
        intro y hy d' hd'
        rcases List.mem_cons.mp hy with rfl | hy
        · rw [hx] at hd'; cases hd'
        · exact hpre y hy d' hd'
    | some dx =>
      simp only []
      by_cases hlt : (dx : WithTop ℝ) < m
      · rw [if_pos hlt]
        rcases ih (some { x with distance := some dx }) (dx : WithTop ℝ) with
          ⟨hfold, hall⟩ | ⟨pre, w, post, d, hl, hw, hdm, hpre, hpost, hfold⟩
        · refine Or.inr ⟨[], x, l, dx, rfl, hx, hlt, ?_, ?_, hfold⟩
          · intro y hy
            exact absurd hy (List.not_mem_nil y)
          · intro y hy d' hd'
            exact WithTop.coe_le_coe.mp (hall y hy d' hd')
        · refine Or.inr ⟨x :: pre, w, post, d, by rw [hl]; rfl, hw, lt_trans hdm hlt, ?_,
            hpost, hfold⟩
          intro y hy d' hd'
          rcases List.mem_cons.mp hy with rfl | hy
          · rw [hx] at hd'
            cases hd'
            exact WithTop.coe_lt_coe.mp hdm
          · exact hpre y hy d' hd'
      · rw [if_neg hlt]
        rcases ih c m with ⟨hfold, hall⟩ | ⟨pre, w, post, d, hl, hw, hdm, hpre, hpost, hfold⟩
        · refine Or.inl ⟨hfold, fun y hy d hd => ?_⟩
          rcases List.mem_cons.mp hy with rfl | hy
          · rw [hx] at hd
            cases hd
            exact not_lt.mp hlt
          · exact hall y hy d hd
        · refine Or.inr ⟨x :: pre, w, post, d, by rw [hl]; rfl, hw, hdm, ?_, hpost, hfold⟩
          intro y hy d' hd'
          rcases List.mem_cons.mp hy with rfl | hy
          · rw [hx] at hd'
            cases hd'
            exact WithTop.coe_lt_coe.mp (lt_of_lt_of_le hdm (not_lt.mp hlt))
          · exact hpre y hy d' hd'

/-- A record whose `location` array starts with two finite numbers is scanned,
whatever follows in the array. -/
theorem scannedDistance_of_numbers (loc : CurrentLocation ℝ) (w : WildfireRecord ℝ)
    (longitude latitude : ℝ) (rest : List (Coord ℝ))
    (h : w.location = .array (.num longitude :: .num latitude :: rest)) :
    scannedDistance loc w =
      some (calculateDistance loc.latitude loc.longitude latitude longitude) := by
  simp [scannedDistance, h, destructure, Coord.toNumber]

/-- A record with a valid coordinate pair is scanned. -/
theorem scannedDistance_of_valid (loc : CurrentLocation ℝ) (w : WildfireRecord ℝ)
    (h : validCoordinatePair w) : ∃ d, scannedDistance loc w = some d := by
  obtain ⟨longitude, latitude, hw, _⟩ := h
  exact ⟨_, scannedDistance_of_numbers loc w longitude latitude [] hw⟩

/-- The scan of a list of two scanned records. -/
theorem findClosestWildfire_pair (loc : CurrentLocation ℝ) (w1 w2 : WildfireRecord ℝ)
    (d1 d2 : ℝ) (h1 : scannedDistance loc w1 = some d1)
    (h2 : scannedDistance loc w2 = some d2) :
    findClosestWildfire (some loc) [w1, w2] =
      if d2 < d1 then .found { w2 with distance := some d2 }
      else .found { w1 with distance := some d1 } := by
  simp only [findClosestWildfire, List.length_cons, List.length_nil, List.foldl_cons,
    List.foldl_nil, scanStep_eq, h1, h2]
  rw [if_neg (by norm_num), if_pos (WithTop.coe_lt_top d1)]
  by_cases h : d2 < d1
  · rw [if_pos (WithTop.coe_lt_coe.mpr h), if_pos h]
  · rw [if_neg (fun hlt => h (WithTop.coe_lt_coe.mp hlt)), if_neg h]

/-! ## Claims on the closest-wildfire selection -/

/-- C9: from the current location (0, 0), with a list of exactly two records, one
1 degree away and one 10 degrees away (each along the meridian or along the
equator, in either direction and in either list order, whatever their other
fields), the selection returns the 1-degree record with its `distance` field
set, and that distance is within 1% of 111.2 km. -/
theorem C9_closest_of_two (near far : WildfireRecord ℝ) (lon1 lat1 lon10 lat10 : ℝ)
    (hnear : near.location = .array [.num lon1, .num lat1])
    (hfar : far.location = .array [.num lon10, .num lat10])
    (h1 : (lon1 = 0 ∧ |lat1| = 1) ∨ (|lon1| = 1 ∧ lat1 = 0))
    (h10 : (lon10 = 0 ∧ |lat10| = 10) ∨ (|lon10| = 10 ∧ lat10 = 0)) :
    ∃ d : ℝ,
      findClosestWildfire (some ⟨0, 0⟩) [near, far] = .found { near with distance := some d }
        ∧ findClosestWildfire (some ⟨0, 0⟩) [far, near]
            = .found { near with distance := some d }
        ∧ |d - 111.2| ≤ 111.2 / 100 := by
  have hpi := Real.pi_gt_d2
  have hpi' := Real.pi_lt_d2
  have hd1 : calculateDistance 0 0 lat1 lon1 = 6371 * (1 * (Real.pi / 180)) := by
    rcases h1 with ⟨rfl, h⟩ | ⟨h, rfl⟩
    · rw [← h]
      exact (calculateDistance_from_origin lat1 (by linarith [(abs_le.mp h.le).1])
        (by linarith [(abs_le.mp h.le).2])).1
    · rw [← h]
      exact (calculateDistance_from_origin lon1 (by linarith [(abs_le.mp h.le).1])
        (by linarith [(abs_le.mp h.le).2])).2
  have hd10 : calculateDistance 0 0 lat10 lon10 = 6371 * (10 * (Real.pi / 180)) := by
    rcases h10 with ⟨rfl, h⟩ | ⟨h, rfl⟩
    · rw [← h]
      exact (calculateDistance_from_origin lat10 (by linarith [(abs_le.mp h.le).1])
        (by linarith [(abs_le.mp h.le).2])).1
    · rw [← h]
      exact (calculateDistance_from_origin lon10 (by linarith [(abs_le.mp h.le).1])
        (by linarith [(abs_le.mp h.le).2])).2
  have hs1 : scannedDistance ⟨0, 0⟩ near = some (6371 * (1 * (Real.pi / 180))) := by
    rw [scannedDistance_of_numbers ⟨0, 0⟩ near lon1 lat1 [] hnear, hd1]
  have hs10 : scannedDistance ⟨0, 0⟩ far = some (6371 * (10 * (Real.pi / 180))) := by
    rw [scannedDistance_of_numbers ⟨0, 0⟩ far lon10 lat10 [] hfar, hd10]
  have hlt : (6371 : ℝ) * (1 * (Real.pi / 180)) < 6371 * (10 * (Real.pi / 180)) := by
    linarith
  refine ⟨6371 * (1 * (Real.pi / 180)), ?_, ?_, ?_⟩
  · rw [findClosestWildfire_pair _ _ _ _ _ hs1 hs10, if_neg (not_lt.mpr hlt.le)]
  · rw [findClosestWildfire_pair _ _ _ _ _ hs10 hs1, if_pos hlt]
  · rw [abs_le]
    constructor <;> norm_num <;> linarith

/-- C9 (witness): the two records of the spec, `location` `[0, 1]` and `[0, 10]`,
with no other field. -/
theorem C9_closest_of_two_witness :
    ∃ d : ℝ,
      findClosestWildfire (some ⟨0, 0⟩)
          [{ emptyRecord ℝ with location := .array [.num 0, .num 1] },
            { emptyRecord ℝ with location := .array [.num 0, .num 10] }]
          = .found { emptyRecord ℝ with
              location := .array [.num 0, .num 1], distance := some d }
        ∧ findClosestWildfire (some ⟨0, 0⟩)
            [{ emptyRecord ℝ with location := .array [.num 0, .num 10] },
              { emptyRecord ℝ with location := .array [.num 0, .num 1] }]
            = .found { emptyRecord ℝ with
                location := .array [.num 0, .num 1], distance := some d }
        ∧ |d - 111.2| ≤ 111.2 / 100 :=
  C9_closest_of_two { emptyRecord ℝ with location := .array [.num 0, .num 1] }
    { emptyRecord ℝ with location := .array [.num 0, .num 10] } 0 1 0 10 rfl rfl
    (Or.inl ⟨rfl, abs_one⟩) (Or.inl ⟨rfl, by norm_num⟩)

/-- C10 (failing input): from (0, 0), with a first record at `[0, 10]`, a valid
coordinate pair, and a second record whose `location` is the three-entry array
`[0, 1, 7]`, the selection returns the second record: it is read by its first
two entries although it has no valid coordinate pair, so the result is not the
closest record among those with a valid pair, which is the first one. -/
theorem C10_three_entry_record_selected :
    validCoordinatePair { emptyRecord ℝ with location := .array [.num 0, .num 10] }
      ∧ ¬ validCoordinatePair
          { emptyRecord ℝ with location := .array [.num 0, .num 1, .num 7] }
      ∧ findClosestWildfire (some ⟨0, 0⟩)
          [{ emptyRecord ℝ with location := .array [.num 0, .num 10] },
            { emptyRecord ℝ with location := .array [.num 0, .num 1, .num 7] }]
          = .found { emptyRecord ℝ with
              location := .array [.num 0, .num 1, .num 7],
              distance := some (6371 * (1 * (Real.pi / 180))) } := by
  have hpi := Real.pi_pos
  have hs10 : scannedDistance ⟨0, 0⟩
      { emptyRecord ℝ with location := .array [.num 0, .num 10] }
        = some (6371 * (10 * (Real.pi / 180))) := by
    rw [scannedDistance_of_numbers ⟨0, 0⟩ _ 0 10 [] rfl,
      (calculateDistance_from_origin 10 (by norm_num) (by norm_num)).1,
      abs_of_nonneg (by norm_num : (0 : ℝ) ≤ 10)]
  have hs1 : scannedDistance ⟨0, 0⟩
      { emptyRecord ℝ with location := .array [.num 0, .num 1, .num 7] }
        = some (6371 * (1 * (Real.pi / 180))) := by
    rw [scannedDistance_of_numbers ⟨0, 0⟩ _ 0 1 [.num 7] rfl,
      (calculateDistance_from_origin 1 (by norm_num) (by norm_num)).1, abs_one]
  have hlt : (6371 : ℝ) * (1 * (Real.pi / 180)) < 6371 * (10 * (Real.pi / 180)) := by
    linarith
  refine ⟨⟨0, 10, rfl, by norm_num, by norm_num, by norm_num, by norm_num⟩, ?_, ?_⟩
  · rintro ⟨longitude, latitude, h, _⟩
    simp [emptyRecord] at h
  · rw [findClosestWildfire_pair _ _ _ _ _ hs10 hs1, if_pos hlt]

/-- The scan over every record for which a distance is computed: with a known
location and a list holding at least one such record, the selection returns the
first record in list order whose distance is least among them, with `distance`
set to this least distance and every other field unchanged. -/
theorem findClosestWildfire_first_minimum (loc : CurrentLocation ℝ)
    (ws : List (WildfireRecord ℝ))
    (h : ∃ w ∈ ws, ∃ d, scannedDistance loc w = some d) :
    ∃ pre w post d, ws = pre ++ w :: post ∧ scannedDistance loc w = some d
      ∧ (∀ x ∈ pre, ∀ d', scannedDistance loc x = some d' → d < d')
      ∧ (∀ x ∈ post, ∀ d', scannedDistance loc x = some d' → d ≤ d')
      ∧ findClosestWildfire (some loc) ws = .found { w with distance := some d } := by
  rcases foldl_scanStep loc ws none ⊤ with
    ⟨_, hall⟩ | ⟨pre, w, post, d, hl, hw, _, hpre, hpost, hfold⟩
  · obtain ⟨w, hw, d, hd⟩ := h
    exact absurd (hall w hw d hd) (not_le.mpr (WithTop.coe_lt_top d))
  · refine ⟨pre, w, post, d, hl, hw, hpre, hpost, ?_⟩
    have hlen : ws.length ≠ 0 := by
      rw [hl]
      simp
    simp only [findClosestWildfire, if_neg hlen, hfold]

/-- The scan of a list of one scanned record. -/
theorem findClosestWildfire_singleton (loc : CurrentLocation ℝ) (w : WildfireRecord ℝ)
    (d : ℝ) (h : scannedDistance loc w = some d) :
    findClosestWildfire (some loc) [w] = .found { w with distance := some d } := by
  simp only [findClosestWildfire, List.length_cons, List.length_nil, List.foldl_cons,
    List.foldl_nil, scanStep_eq, h]
  rw [if_neg (by norm_num), if_pos (WithTop.coe_lt_top d)]

/-- The scan of a list in which no distance is computed leaves the loop state as
it is. -/
theorem foldl_scanStep_none (loc : CurrentLocation ℝ) (l : List (WildfireRecord ℝ))
    (h : ∀ w ∈ l, scannedDistance loc w = none)
    (state : Option (WildfireRecord ℝ) × WithTop ℝ) :
    l.foldl (scanStep loc) state = state := by
  induction l generalizing state with
  | nil => rfl
  | cons x l ih =>
    rw [List.foldl_cons, scanStep_eq, h x (List.mem_cons_self x l)]
    exact ih (fun w hw => h w (List.mem_cons_of_mem x hw)) state

/-- C11 (counterexample): with an unknown location the function returns
`undefined` from its bare `return`, which is not `null`; and from (0, 0) the
one-record list whose `location` is `[0, 1, 7]` holds no record with a valid
coordinate pair, yet the function returns that record, not `null`. -/
theorem C11_counterexample :
    findClosestWildfire none [emptyRecord ℝ] = .undefined
      ∧ (ClosestResult.undefined : ClosestResult ℝ) ≠ .null
      ∧ ¬ validCoordinatePair
          { emptyRecord ℝ with location := .array [.num 0, .num 1, .num 7] }
      ∧ findClosestWildfire (some ⟨0, 0⟩)
          [{ emptyRecord ℝ with location := .array [.num 0, .num 1, .num 7] }]
          = .found { emptyRecord ℝ with
              location := .array [.num 0, .num 1, .num 7],
              distance := some (calculateDistance 0 0 1 0) } := by
  refine ⟨rfl, ?_, ?_, ?_⟩
  · intro h
    cases h
  · rintro ⟨longitude, latitude, h, _⟩
    simp [emptyRecord] at h
  · exact findClosestWildfire_singleton ⟨0, 0⟩ _ _
      (scannedDistance_of_numbers ⟨0, 0⟩ _ 0 1 [.num 7] rfl)

/-- C11 (amended): the function returns no record, namely `undefined` whenever
the current location is unknown or the list is empty, and `null` whenever the
location is known, the list is not empty and a distance is computed for none of
its records (no `location` is an array whose first two entries read as
numbers). -/
theorem C11_returns_no_record (loc : Option (CurrentLocation ℝ))
    (ws : List (WildfireRecord ℝ)) :
    findClosestWildfire none ws = .undefined
      ∧ findClosestWildfire loc [] = .undefined
      ∧ (∀ l, loc = some l → ws ≠ [] → (∀ w ∈ ws, scannedDistance l w = none) →
          findClosestWildfire loc ws = .null) := by
  refine ⟨rfl, ?_, ?_⟩
  · cases loc <;> rfl
  · intro l hl hne hnone
    subst hl
    have hlen : ws.length ≠ 0 := fun h => hne (List.length_eq_zero.mp h)
    simp only [findClosestWildfire, if_neg hlen, foldl_scanStep_none l ws hnone]

/-- C11 (witness): from (0, 0), a list of a record with no `location`, one whose
`location` is not an array and one whose `location` array holds a single
number. -/
theorem C11_returns_no_record_witness :
    findClosestWildfire (some ⟨0, 0⟩)
      [emptyRecord ℝ, { emptyRecord ℝ with location := .notArray },
        { emptyRecord ℝ with location := .array [.num 5] }] = .null :=
  (C11_returns_no_record (some ⟨0, 0⟩)
    [emptyRecord ℝ, { emptyRecord ℝ with location := .notArray },
      { emptyRecord ℝ with location := .array [.num 5] }]).2.2 ⟨0, 0⟩ rfl
    (by simp)
    (by
      intro w hw
      simp only [List.mem_cons, List.mem_singleton, List.not_mem_nil, or_false] at hw
      rcases hw with rfl | rfl | rfl
      · rfl
      · rfl
      · simp [scannedDistance, destructure, Coord.toNumber])

/-- C12 (failing inputs): from (0, 0), each of these one-record lists makes the
function return its record: a latitude of 95, out of range; a `location` of
three entries, not a pair; and a `location` of two strings that arithmetic reads
as 0 and 1, not numbers. -/
theorem C12_invalid_records_selected :
    findClosestWildfire (some ⟨0, 0⟩)
        [{ emptyRecord ℝ with location := .array [.num 0, .num 95] }]
        = .found { emptyRecord ℝ with
            location := .array [.num 0, .num 95],
            distance := some (6371 * (95 * (Real.pi / 180))) }
      ∧ findClosestWildfire (some ⟨0, 0⟩)
          [{ emptyRecord ℝ with location := .array [.num 0, .num 1, .num 7] }]
          = .found { emptyRecord ℝ with
              location := .array [.num 0, .num 1, .num 7],
              distance := some (6371 * (1 * (Real.pi / 180))) }
      ∧ findClosestWildfire (some ⟨0, 0⟩)
          [{ emptyRecord ℝ with
              location := .array [.nonNumber (some 0), .nonNumber (some 1)] }]
          = .found { emptyRecord ℝ with
              location := .array [.nonNumber (some 0), .nonNumber (some 1)],
              distance := some (6371 * (1 * (Real.pi / 180))) } := by
  have h95 : calculateDistance 0 0 95 0 = 6371 * (95 * (Real.pi / 180)) := by
    rw [(calculateDistance_from_origin 95 (by norm_num) (by norm_num)).1,
      abs_of_nonneg (by norm_num : (0 : ℝ) ≤ 95)]
  have h1 : calculateDistance 0 0 1 0 = 6371 * (1 * (Real.pi / 180)) := by
    rw [(calculateDistance_from_origin 1 (by norm_num) (by norm_num)).1, abs_one]
  refine ⟨?_, ?_, ?_⟩
  · rw [← h95]
    exact findClosestWildfire_singleton ⟨0, 0⟩ _ _
      (scannedDistance_of_numbers ⟨0, 0⟩ _ 0 95 [] rfl)
  · rw [← h1]
    exact findClosestWildfire_singleton ⟨0, 0⟩ _ _
      (scannedDistance_of_numbers ⟨0, 0⟩ _ 0 1 [.num 7] rfl)
  · rw [← h1]
    exact findClosestWildfire_singleton ⟨0, 0⟩ _ _
      (by simp [scannedDistance, destructure, Coord.toNumber, emptyRecord])

/-! ## Lemmas on the batches -/

/-- The number of batches is the rounded-up quotient by 100. -/
theorem batchCount_eq (length : Nat) : batchCount length = (length + 99) / 100 := by
  unfold batchCount batchSize
  apply le_antisymm
  · rw [Nat.ceil_le, div_le_iff₀ (by norm_num)]
    have h : length ≤ (length + 99) / 100 * 100 := by omega
    exact_mod_cast h
  · rcases Nat.eq_zero_or_pos ((length + 99) / 100) with h0 | hpos
    · rw [h0]
      exact Nat.zero_le _
    · have hlt : (length + 99) / 100 - 1 < ⌈(length : ℚ) / ((100 : ℕ) : ℚ)⌉₊ := by
        rw [Nat.lt_ceil, lt_div_iff₀ (by norm_num)]
        have h : ((length + 99) / 100 - 1) * 100 < length := by omega
        exact_mod_cast h
      omega

/-- A batch is the next 100 entries, or what is left of the list. -/
theorem batchOf_eq {β : Type} (l : List β) (i : Nat) :
    batchOf l i = (l.drop (i * 100)).take 100 := by
  unfold batchOf jsSlice batchSize
  simp only []
  rw [← List.take_of_length_le (le_refl (List.drop (i * 100) l).length), List.take_take,
    List.take_take, List.length_drop]
  congr 1
  omega

theorem batchOf_length {β : Type} (l : List β) (i : Nat) :
    (batchOf l i).length = min 100 (l.length - i * 100) := by
  rw [batchOf_eq, List.length_take, List.length_drop]

/-- The first `n` batches make up the first `100 * n` entries. -/
theorem flatten_batches {β : Type} (l : List β) (n : Nat) :
    ((List.range n).map (batchOf l)).flatten = l.take (n * 100) := by
  induction n with
  | zero => simp
  | succ n ih =>
    rw [List.range_succ, List.map_append, List.flatten_append, ih, List.map_singleton,
      List.flatten_singleton, batchOf_eq, Nat.succ_mul, List.take_add]

/-! ## Claims on the batches -/

/-- C14: the batches of a filtered list of `K` records are consecutive slices of
at most 100 records: there are `⌈K / 100⌉` of them, their concatenation in
order is the list, every batch but the last has exactly 100 records, the last
has between 1 and 100, and none is empty. -/
theorem C14_batches {β : Type} (markersToAdd : List β) :
    batchCount markersToAdd.length = ⌈(markersToAdd.length : ℚ) / 100⌉₊
      ∧ ((List.range (batchCount markersToAdd.length)).map (batchOf markersToAdd)).flatten
          = markersToAdd
      ∧ ∀ i, i < batchCount markersToAdd.length →
          (i + 1 < batchCount markersToAdd.length → (batchOf markersToAdd i).length = 100)
          ∧ (i + 1 = batchCount markersToAdd.length →
              1 ≤ (batchOf markersToAdd i).length ∧ (batchOf markersToAdd i).length ≤ 100)
          ∧ batchOf markersToAdd i ≠ [] := by
  have hB := batchCount_eq markersToAdd.length
  refine ⟨?_, ?_, ?_⟩
  · unfold batchCount batchSize
    norm_num
  · rw [flatten_batches, List.take_of_length_le]
    rw [hB]
    omega
  · intro i hi
    have hlen := batchOf_length markersToAdd i
    rw [hB] at hi
    refine ⟨fun h => ?_, fun h => ?_, fun h => ?_⟩
    · rw [hB] at h
      rw [hlen]
      omega
    · rw [hlen]
      omega
    · rw [h, List.length_nil] at hlen
      omega

/-- C14 (witness): a list of 250 records has 3 batches; the second has exactly
100 records and is not empty. -/
theorem C14_batches_witness :
    1 < batchCount (List.range 250).length
      ∧ (batchOf (List.range 250) 1).length = 100
      ∧ batchOf (List.range 250) 1 ≠ [] :=
  have h1 : 1 < batchCount (List.range 250).length := by
    rw [batchCount_eq, List.length_range]
    norm_num
  have h2 : 1 + 1 < batchCount (List.range 250).length := by
    rw [batchCount_eq, List.length_range]
    norm_num
  ⟨h1, ((C14_batches (List.range 250)).2.2 1 h1).1 h2,
    ((C14_batches (List.range 250)).2.2 1 h1).2.2⟩

/-! ## Lemmas on the render pass -/

section RenderLemmas

variable {α : Type} [LinearOrderedField α]

/-- The filter of `addMarkersInBatches` keeps exactly the records that qualify
in the words of the spec. -/
theorem markerFilter_iff_qualifies (bounds : α → α → Bool) (item : WildfireRecord α) :
    markerFilter (some bounds) item = true ↔ qualifies bounds item := by
  unfold markerFilter qualifies
  cases hloc : item.location with
  | missing => simp
  | notArray => simp
  | array entries =>
    match entries with
    | [] => simp
    | [_] => simp
    | _ :: _ :: _ :: _ => simp
    | [lng, lat] =>
      cases lng <;> cases lat <;> simp [isInBounds]
      rename_i x y
      constructor
      · rintro ⟨h, hb⟩
        exact ⟨x, y, ⟨rfl, rfl⟩, h.1, h.2.1, h.2.2.1, h.2.2.2, hb⟩
      · rintro ⟨longitude, latitude, ⟨rfl, rfl⟩, h1, h2, h3, h4, hb⟩
        exact ⟨⟨h1, h2, h3, h4⟩, hb⟩

end RenderLemmas

/-- A batch whose markers are all created is appended to the marker list. -/
theorem foldl_addMarker {α : Type} (markerThrows : WildfireRecord α → Bool)
    (batch : List (WildfireRecord α)) (h : ∀ item ∈ batch, markerThrows item = false)
    (markers : List (Marker α)) :
    batch.foldl (addMarker markerThrows) markers = markers ++ batch.map Marker.mk := by
  induction batch generalizing markers with
  | nil => simp
  | cons x batch ih =>
    rw [List.foldl_cons, addMarker, h x (List.mem_cons_self x batch)]
    simp only [Bool.false_eq_true, if_false]
    rw [ih (fun item hitem => h item (List.mem_cons_of_mem x hitem))]
    simp

theorem mem_batchOf {β : Type} (l : List β) (i : Nat) (x : β) (h : x ∈ batchOf l i) :
    x ∈ l := by
  rw [batchOf_eq] at h
  exact List.mem_of_mem_drop (List.mem_of_mem_take h)


/-- A turn of the only pending pass that is not its last. -/
theorem resumePass_next {α : Type} (s : View α) (L : List (WildfireRecord α)) (B j : Nat)
    (hp : s.pending = [{ markersToAdd := L, batches := B, i := j }]) (hlt : j + 1 < B) :
    resumePass 0 s =
      { s with
        markers := (batchOf L (j + 1)).foldl (addMarker s.markerThrows) s.markers
        pending := [{ markersToAdd := L, batches := B, i := j + 1 }] } := by
  simp [resumePass, runBatch, hp, hlt]

/-- The last turn of the only pending pass. -/
theorem resumePass_last {α : Type} (s : View α) (L : List (WildfireRecord α)) (B j : Nat)
    (hp : s.pending = [{ markersToAdd := L, batches := B, i := j }]) (hge : ¬ j + 1 < B) :
    resumePass 0 s =
      { s with pending := [], isAddingMarkers := false, visibleMarkerCounts := L.length } := by
  simp [resumePass, hp, hge]

section PassLemmas

variable {α : Type} [LinearOrderedField α]

/-- The start of a pass that has at least one batch: the first batch is on the
map and the pass waits on its timer. -/
theorem addMarkers_start (s : View α) (hmap : s.mapReady = true)
    (hpos : 0 < batchCount (s.markerData.filter (markerFilter (some s.mapBounds))).length) :
    addMarkers false s =
      { s with
        isAddingMarkers := true
        visibleBounds := some s.mapBounds
        markers := (batchOf (s.markerData.filter (markerFilter (some s.mapBounds))) 0).foldl
          (addMarker s.markerThrows) []
        pending := s.pending ++
          [{ markersToAdd := s.markerData.filter (markerFilter (some s.mapBounds))
             batches := batchCount (s.markerData.filter (markerFilter (some s.mapBounds))).length
             i := 0 }] } := by
  simp [addMarkers, runBatch, hmap, hpos]

/-- The start of a pass with nothing to add: the pass ends at once. -/
theorem addMarkers_empty (s : View α) (hmap : s.mapReady = true)
    (hzero : ¬ 0 < batchCount (s.markerData.filter (markerFilter (some s.mapBounds))).length) :
    addMarkers false s =
      { s with
        isAddingMarkers := false
        visibleBounds := some s.mapBounds
        markers := []
        visibleMarkerCounts :=
          (s.markerData.filter (markerFilter (some s.mapBounds))).length } := by
  simp [addMarkers, hmap, hzero]

/-- While the pass of an idle view runs, after `j` turns of its timer the first
`j + 1` batches are on the map and the pass waits for the next turn. -/
theorem pass_after (s : View α) (hmap : s.mapReady = true) (hidle : s.pending = [])
    (hthrows : ∀ item, markerFilter (some s.mapBounds) item = true → s.markerThrows item = false)
    (j : Nat)
    (hj : j < batchCount (s.markerData.filter (markerFilter (some s.mapBounds))).length) :
    (resumePass 0)^[j] (addMarkers false s) =
      { s with
        isAddingMarkers := true
        visibleBounds := some s.mapBounds
        markers :=
          ((s.markerData.filter (markerFilter (some s.mapBounds))).take ((j + 1) * 100)).map
            Marker.mk
        pending :=
          [{ markersToAdd := s.markerData.filter (markerFilter (some s.mapBounds))
             batches := batchCount (s.markerData.filter (markerFilter (some s.mapBounds))).length
             i := j }] } := by
  have hbatch : ∀ i, ∀ item ∈ batchOf (s.markerData.filter (markerFilter (some s.mapBounds))) i,
      s.markerThrows item = false := fun i item hitem =>
    hthrows item (List.mem_filter.mp (mem_batchOf _ i item hitem)).2
  induction j with
  | zero =>
    rw [Function.iterate_zero, id, addMarkers_start s hmap hj, hidle,
      foldl_addMarker _ _ (hbatch 0), batchOf_eq]
    simp
  | succ j ih =>
    rw [Function.iterate_succ_apply', ih (Nat.lt_of_succ_lt hj),
      resumePass_next _ (s.markerData.filter (markerFilter (some s.mapBounds)))
        (batchCount (s.markerData.filter (markerFilter (some s.mapBounds))).length) j rfl hj]
    simp only []
    rw [foldl_addMarker _ _ (hbatch (j + 1)), batchOf_eq, ← List.map_append,
      ← List.take_add, ← Nat.succ_mul]

/-- The pass of an idle view, run to its end: `batches` turns of the timer after
`addMarkers` the marker list is the filtered list, the count is its length and
no pass is left. -/
theorem pass_complete (s : View α) (hmap : s.mapReady = true) (hidle : s.pending = [])
    (hthrows : ∀ item, markerFilter (some s.mapBounds) item = true →
      s.markerThrows item = false) :
    (resumePass 0)^[batchCount (s.markerData.filter (markerFilter (some s.mapBounds))).length]
        (addMarkers false s) =
      { s with
        isAddingMarkers := false
        visibleBounds := some s.mapBounds
        markers := (s.markerData.filter (markerFilter (some s.mapBounds))).map Marker.mk
        pending := []
        visibleMarkerCounts :=
          (s.markerData.filter (markerFilter (some s.mapBounds))).length } := by
  have hB := batchCount_eq (s.markerData.filter (markerFilter (some s.mapBounds))).length
  cases hc : batchCount (s.markerData.filter (markerFilter (some s.mapBounds))).length with
  | zero =>
    have hlen : (s.markerData.filter (markerFilter (some s.mapBounds))).length = 0 := by
      omega
    rw [Function.iterate_zero, id, addMarkers_empty s hmap (by omega), hidle,
      List.length_eq_zero.mp hlen]
    rfl
  | succ j =>
    rw [Function.iterate_succ_apply', pass_after s hmap hidle hthrows j (by omega),
      resumePass_last _ (s.markerData.filter (markerFilter (some s.mapBounds)))
        (batchCount (s.markerData.filter (markerFilter (some s.mapBounds))).length) j rfl
        (by omega)]
    simp only []
    rw [List.take_of_length_le (by omega)]

end PassLemmas

/-! ## Claims on the render pass -/

section RenderClaims

variable {α : Type} [LinearOrderedField α]

/-- C13: one render pass started on an idle view with the map loaded, on which
the map widget creates the marker of every qualifying record, and run to its
end (`batches` turns of its timer): the marker list then holds exactly one
marker per record that qualifies (a `location` of exactly two finite numbers,
latitude in `[-90, 90]`, longitude in `[-180, 180]`, inside the captured
bounds), in list order, and none for any other record or from an earlier pass;
with `K` such records there are `K` markers, the reported count is `K`,
`K ≤ N`, and no pass is left in progress. -/
theorem C13_render_pass (s : View α) (hmap : s.mapReady = true) (hidle : s.pending = [])
    (hthrows : ∀ item, qualifies s.mapBounds item → s.markerThrows item = false) :
    (((resumePass 0)^[batchCount
          (s.markerData.filter (markerFilter (some s.mapBounds))).length]
        (addMarkers false s)).markers.map Marker.item
        = s.markerData.filter (markerFilter (some s.mapBounds)))
      ∧ (∀ item, markerFilter (some s.mapBounds) item = true ↔ qualifies s.mapBounds item)
      ∧ ((resumePass 0)^[batchCount
            (s.markerData.filter (markerFilter (some s.mapBounds))).length]
          (addMarkers false s)).markers.length
          = (s.markerData.filter (markerFilter (some s.mapBounds))).length
      ∧ ((resumePass 0)^[batchCount
            (s.markerData.filter (markerFilter (some s.mapBounds))).length]
          (addMarkers false s)).visibleMarkerCounts
          = (s.markerData.filter (markerFilter (some s.mapBounds))).length
      ∧ (s.markerData.filter (markerFilter (some s.mapBounds))).length ≤ s.markerData.length
      ∧ ((resumePass 0)^[batchCount
            (s.markerData.filter (markerFilter (some s.mapBounds))).length]
          (addMarkers false s)).isAddingMarkers = false
      ∧ ((resumePass 0)^[batchCount
            (s.markerData.filter (markerFilter (some s.mapBounds))).length]
          (addMarkers false s)).pending = [] := by
  have hthrows' : ∀ item, markerFilter (some s.mapBounds) item = true →
      s.markerThrows item = false := fun item h =>
    hthrows item ((markerFilter_iff_qualifies s.mapBounds item).mp h)
  rw [pass_complete s hmap hidle hthrows']
  refine ⟨?_, markerFilter_iff_qualifies s.mapBounds, ?_, rfl, List.length_filter_le _ _,
    rfl, rfl⟩
  · simp only [List.map_map]
    exact List.map_id _
  · simp only [List.length_map]

end RenderClaims

/-- The filter on the sample view keeps the record at (0, 0) only: the record
at (50, 50) is outside the viewport, the one at latitude 95 is out of range. -/
theorem sampleView_filter :
    sampleView.markerData.filter (markerFilter (some sampleView.mapBounds))
      = [recordAt 0 0] := by
  simp [sampleView, emptyView, recordAt, emptyRecord, markerFilter, isInBounds, boxBounds,
    List.filter]
  norm_num

/-- C13 (witness): on the sample view one pass renders one marker, for the record
at (0, 0), and reports the count 1. -/
theorem C13_render_pass_witness :
    ((resumePass 0)^[batchCount
        (sampleView.markerData.filter (markerFilter (some sampleView.mapBounds))).length]
      (addMarkers false sampleView)).markers.map Marker.item = [recordAt 0 0]
    ∧ ((resumePass 0)^[batchCount
        (sampleView.markerData.filter (markerFilter (some sampleView.mapBounds))).length]
      (addMarkers false sampleView)).visibleMarkerCounts = 1 :=
  ⟨(C13_render_pass sampleView rfl rfl (fun _ _ => rfl)).1.trans sampleView_filter,
    (C13_render_pass sampleView rfl rfl (fun _ _ => rfl)).2.2.2.1.trans
      (congrArg List.length sampleView_filter)⟩

/-- C15 (failing input): on the sample view a pass is started and waits on its
timer with the marker of (0, 0) on the map; the user pans to the box around
(50, 50) and `moveend` fires.  The handler the map holds reads the first
render's `isAddingMarkers`, which is `false`, so the call is not dropped: the
marker list becomes the marker of (50, 50) and a second pass is pending.  Had
the handler read the current state, the call would have changed nothing. -/
theorem C15_second_render_not_dropped :
    (addMarkers false sampleView).isAddingMarkers = true
      ∧ (addMarkers false sampleView).pending.length = 1
      ∧ (addMarkers false sampleView).markers.map Marker.item = [recordAt 0 0]
      ∧ (onViewportEvent
          { addMarkers false sampleView with mapBounds := boxBounds 40 40 60 60 }).markers.map
            Marker.item = [recordAt 50 50]
      ∧ (onViewportEvent
          { addMarkers false sampleView with mapBounds := boxBounds 40 40 60 60 }).pending.length
            = 2
      ∧ viewportHandler (addMarkers false sampleView).isAddingMarkers
          { addMarkers false sampleView with mapBounds := boxBounds 40 40 60 60 }
          = { addMarkers false sampleView with mapBounds := boxBounds 40 40 60 60 } := by
  have hpos : 0 < batchCount
      (sampleView.markerData.filter (markerFilter (some sampleView.mapBounds))).length := by
    rw [sampleView_filter, batchCount_eq]
    norm_num
  have hstart := addMarkers_start sampleView rfl hpos
  rw [sampleView_filter] at hstart
  have hfilter2 : sampleView.markerData.filter
      (markerFilter (some (boxBounds (40 : ℚ) 40 60 60))) = [recordAt 50 50] := by
    simp [sampleView, emptyView, recordAt, emptyRecord, markerFilter, isInBounds, boxBounds,
      List.filter]
    norm_num
  have hpos2 : 0 < batchCount
      (sampleView.markerData.filter (markerFilter (some (boxBounds (40 : ℚ) 40 60 60)))).length := by
    rw [hfilter2, batchCount_eq]
    norm_num
  have hsecond := addMarkers_start
    { addMarkers false sampleView with mapBounds := boxBounds 40 40 60 60 }
    (by rw [hstart]; rfl) (by rw [hstart]; exact hpos2)
  refine ⟨?_, ?_, ?_, ?_, ?_, ?_⟩
  · rw [hstart]
  · rw [hstart]
    rfl
  · rw [hstart]
    simp [batchOf_eq, addMarker, sampleView, emptyView]
  · rw [onViewportEvent, viewportHandler, firstRenderIsAddingMarkers]
    simp only [Bool.not_false, if_true]
    rw [hsecond]
    simp only []
    rw [hstart]
    simp only []
    rw [hfilter2]
    simp [batchOf_eq, addMarker, sampleView, emptyView]
  · rw [onViewportEvent, viewportHandler, firstRenderIsAddingMarkers]
    simp only [Bool.not_false, if_true]
    rw [hsecond]
    simp only []
    rw [hstart]
    rfl
  · rw [hstart]
    rfl

/-! ## Lemmas on the spread overlay -/

theorem removeSpreadLayer_eq {α : Type} (s : View α) (layerId : LayerId) :
    removeSpreadLayer s layerId =
      { s with
        mapLayers := s.mapLayers.filter (fun x => x ≠ layerId)
        mapSources := s.mapSources.filter (fun x => x ≠ layerId) } := by
  have hfilter : ∀ l : List LayerId, layerId ∉ l → l.filter (fun x => x ≠ layerId) = l := by
    intro l hl
    rw [List.filter_eq_self]
    intro x hx
    simp only [ne_eq, decide_not, Bool.not_eq_true', decide_eq_false_iff_not]
    exact fun h => hl (h ▸ hx)
  unfold removeSpreadLayer
  by_cases h1 : layerId ∈ s.mapLayers <;> by_cases h2 : layerId ∈ s.mapSources
  · simp [h1, h2]
  · simp only [h1, h2, if_true, if_false]
    rw [hfilter s.mapSources h2]
  · simp only [h1, h2, if_true, if_false]
    rw [hfilter s.mapLayers h1]
  · simp only [h1, h2, if_false]
    rw [hfilter s.mapLayers h1, hfilter s.mapSources h2]

/-- Removing the tracked ids leaves on the map the layers and sources whose id
is not tracked. -/
theorem foldl_removeSpreadLayer {α : Type} (ids : List LayerId) (s : View α) :
    ids.foldl removeSpreadLayer s =
      { s with
        mapLayers := s.mapLayers.filter (fun x => decide (x ∉ ids))
        mapSources := s.mapSources.filter (fun x => decide (x ∉ ids)) } := by
  induction ids generalizing s with
  | nil => simp
  | cons a ids ih =>
    rw [List.foldl_cons, removeSpreadLayer_eq, ih]
    simp only [List.filter_filter, List.mem_cons, not_or]
    congr 1
    · apply List.filter_congr
      intro x _
      by_cases hx : x = a <;> simp [hx]
    · apply List.filter_congr
      intro x _
      by_cases hx : x = a <;> simp [hx]


section SpreadLemmas

variable {α : Type} [LinearOrderedField α]

/-- A 2xx answer whose body lacks a truthy latitude or longitude: the tracked
overlay is removed and nothing is added. -/
theorem fetchSpreadData_no_coordinates (now1 now2 : Nat) (data : SpreadData α) (s : View α)
    (hmap : s.mapReady = true) (hsel : s.selectedMarker.isSome = true)
    (hdata : (jsTruthy data.latitude && jsTruthy data.longitude) = false) :
    fetchSpreadData now1 now2 (.response true (some data)) s =
      { s with
        mapLayers := s.mapLayers.filter (fun x => decide (x ∉ s.spreadLayers))
        mapSources := s.mapSources.filter (fun x => decide (x ∉ s.spreadLayers))
        spreadLayers := []
        showPopup := false
        isSpreadLoading := false } := by
  have hnone : s.selectedMarker.isNone = false := by
    cases h : s.selectedMarker with
    | none => rw [h] at hsel; cases hsel
    | some _ => rfl
  simp [fetchSpreadData, hmap, hnone, hdata, foldl_removeSpreadLayer]

/-- A 2xx answer with a truthy latitude and longitude: the tracked overlay is
removed, then the new centre point and radius circle are added and tracked. -/
theorem fetchSpreadData_drawn (now1 now2 : Nat) (data : SpreadData α) (s : View α)
    (hmap : s.mapReady = true) (hsel : s.selectedMarker.isSome = true)
    (hdata : (jsTruthy data.latitude && jsTruthy data.longitude) = true) :
    fetchSpreadData now1 now2 (.response true (some data)) s =
      { s with
        mapLayers := s.mapLayers.filter (fun x => decide (x ∉ s.spreadLayers))
          ++ [.spreadArea now2] ++ [.spreadPoint now1]
        mapSources := s.mapSources.filter (fun x => decide (x ∉ s.spreadLayers))
          ++ [.spreadPoint now1] ++ [.spreadArea now2]
        spreadLayers := [.spreadPoint now1, .spreadArea now2]
        showPopup := false
        isSpreadLoading := false } := by
  have hnone : s.selectedMarker.isNone = false := by
    cases h : s.selectedMarker with
    | none => rw [h] at hsel; cases hsel
    | some _ => rfl
  simp [fetchSpreadData, hmap, hnone, hdata, foldl_removeSpreadLayer]

/-- A call that fails, or returns early, changes no layer, no source and not
the tracked list. -/
theorem fetchSpreadData_unchanged (now1 now2 : Nat) (answer : FetchResult (SpreadData α))
    (s : View α)
    (h : s.mapReady = false ∨ s.selectedMarker.isSome = false ∨ answer = .networkError
      ∨ (∃ body, answer = .response false body) ∨ answer = .response true none) :
    (fetchSpreadData now1 now2 answer s).mapLayers = s.mapLayers
      ∧ (fetchSpreadData now1 now2 answer s).mapSources = s.mapSources
      ∧ (fetchSpreadData now1 now2 answer s).spreadLayers = s.spreadLayers := by
  unfold fetchSpreadData
  by_cases hguard : (!s.mapReady || s.selectedMarker.isNone) = true
  · rw [if_pos hguard]
    exact ⟨rfl, rfl, rfl⟩
  · rw [if_neg hguard]
    rcases h with h | h | h | ⟨body, h⟩ | h
    · simp [h] at hguard
    · cases hs : s.selectedMarker with
      | none => simp [hs] at hguard
      | some _ => simp [hs] at h
    · subst h
      exact ⟨rfl, rfl, rfl⟩
    · subst h
      exact ⟨rfl, rfl, rfl⟩
    · subst h
      exact ⟨rfl, rfl, rfl⟩

end SpreadLemmas

/-! ## Claims on the spread overlay -/

section SpreadClaims

variable {α : Type} [LinearOrderedField α]

/-- C16: when the request throws or the answer is not 2xx, every layer and
source of the map, the spread overlay among them, and the tracked list of
spread layer ids are as they were before the call. -/
theorem C16_failed_request_keeps_overlay (now1 now2 : Nat) (body : Option (SpreadData α))
    (s : View α) :
    ((fetchSpreadData now1 now2 .networkError s).mapLayers = s.mapLayers
        ∧ (fetchSpreadData now1 now2 .networkError s).mapSources = s.mapSources
        ∧ (fetchSpreadData now1 now2 .networkError s).spreadLayers = s.spreadLayers)
      ∧ ((fetchSpreadData now1 now2 (.response false body) s).mapLayers = s.mapLayers
        ∧ (fetchSpreadData now1 now2 (.response false body) s).mapSources = s.mapSources
        ∧ (fetchSpreadData now1 now2 (.response false body) s).spreadLayers
            = s.spreadLayers) :=
  ⟨fetchSpreadData_unchanged now1 now2 .networkError s (Or.inr (Or.inr (Or.inl rfl))),
    fetchSpreadData_unchanged now1 now2 (.response false body) s
      (Or.inr (Or.inr (Or.inr (Or.inl ⟨body, rfl⟩))))⟩

/-- C17 (amended): with the map loaded and a marker selected, a 2xx answer whose
JSON body has no latitude or no longitude draws no new overlay and removes the
one drawn before: the tracked list is emptied, no layer or source is added, and
no tracked id is left on the map.  A 2xx answer whose body is not JSON changes
no layer, no source and not the tracked list. -/
theorem C17_missing_coordinates_clear_overlay (now1 now2 : Nat) (data : SpreadData α)
    (s : View α) (hmap : s.mapReady = true) (hsel : s.selectedMarker.isSome = true)
    (hdata : data.latitude = none ∨ data.longitude = none) :
    (fetchSpreadData now1 now2 (.response true (some data)) s).spreadLayers = []
      ∧ (fetchSpreadData now1 now2 (.response true (some data)) s).mapLayers
          = s.mapLayers.filter (fun x => decide (x ∉ s.spreadLayers))
      ∧ (fetchSpreadData now1 now2 (.response true (some data)) s).mapSources
          = s.mapSources.filter (fun x => decide (x ∉ s.spreadLayers))
      ∧ (∀ id ∈ s.spreadLayers,
          id ∉ (fetchSpreadData now1 now2 (.response true (some data)) s).mapLayers
          ∧ id ∉ (fetchSpreadData now1 now2 (.response true (some data)) s).mapSources)
      ∧ ((fetchSpreadData now1 now2 (.response true none) s).mapLayers = s.mapLayers
        ∧ (fetchSpreadData now1 now2 (.response true none) s).mapSources = s.mapSources
        ∧ (fetchSpreadData now1 now2 (.response true none) s).spreadLayers
            = s.spreadLayers) := by
  have hfalsy : (jsTruthy data.latitude && jsTruthy data.longitude) = false := by
    rcases hdata with h | h <;> simp [h, jsTruthy]
  rw [fetchSpreadData_no_coordinates now1 now2 data s hmap hsel hfalsy]
  refine ⟨rfl, rfl, rfl, ?_,
    fetchSpreadData_unchanged now1 now2 (.response true none) s
      (Or.inr (Or.inr (Or.inr (Or.inr rfl))))⟩
  intro id hid
  simp only [List.mem_filter, decide_eq_true_eq, not_and, not_not]
  exact ⟨fun _ => hid, fun _ => hid⟩

end SpreadClaims

/-- C17 (counterexample): on the view with one overlay drawn, a 2xx answer whose
body has no latitude leaves no spread layer, no spread source and no tracked id:
the overlay drawn before is removed, not left untouched. -/
theorem C17_counterexample :
    (fetchSpreadData 2 2
        (.response true (some bodyWithoutLatitude))
        overlayView).spreadLayers = []
      ∧ (fetchSpreadData 2 2
          (.response true (some bodyWithoutLatitude))
          overlayView).mapLayers = [.other "water"]
      ∧ (fetchSpreadData 2 2
          (.response true (some bodyWithoutLatitude))
          overlayView).mapSources = [.other "composite"]
      ∧ overlayView.spreadLayers = [.spreadPoint 1, .spreadArea 1]
      ∧ overlayView.mapLayers = [.other "water", .spreadArea 1, .spreadPoint 1] := by
  rw [fetchSpreadData_no_coordinates 2 2 bodyWithoutLatitude overlayView rfl rfl
    (by simp [jsTruthy, bodyWithoutLatitude])]
  simp [overlayView, emptyView, List.filter]

/-- C17 (witness): the view with one overlay drawn and an answer with no
latitude. -/
theorem C17_missing_coordinates_clear_overlay_witness :
    (fetchSpreadData 2 2
        (.response true (some bodyWithoutLatitude))
        overlayView).spreadLayers = [] :=
  (C17_missing_coordinates_clear_overlay 2 2 bodyWithoutLatitude overlayView rfl rfl
    (Or.inl rfl)).1


section SpreadInvariant

variable {α : Type} [LinearOrderedField α]

/-- Every call of `fetchSpreadData` changes no layer, no source and not the
tracked list, or is a 2xx answer with a JSON body on a loaded map with a
selected marker. -/
theorem fetchSpreadData_cases (now1 now2 : Nat) (answer : FetchResult (SpreadData α))
    (s : View α) :
    ((fetchSpreadData now1 now2 answer s).mapLayers = s.mapLayers
        ∧ (fetchSpreadData now1 now2 answer s).mapSources = s.mapSources
        ∧ (fetchSpreadData now1 now2 answer s).spreadLayers = s.spreadLayers)
      ∨ (s.mapReady = true ∧ s.selectedMarker.isSome = true
        ∧ ∃ data, answer = .response true (some data)) := by
  by_cases hmap : s.mapReady = true
  · by_cases hsel : s.selectedMarker.isSome = true
    · cases answer with
      | networkError =>
        exact Or.inl (fetchSpreadData_unchanged now1 now2 _ s (Or.inr (Or.inr (Or.inl rfl))))
      | response ok body =>
        cases ok with
        | false =>
          exact Or.inl (fetchSpreadData_unchanged now1 now2 _ s
            (Or.inr (Or.inr (Or.inr (Or.inl ⟨body, rfl⟩)))))
        | true =>
          cases body with
          | none =>
            exact Or.inl (fetchSpreadData_unchanged now1 now2 _ s
              (Or.inr (Or.inr (Or.inr (Or.inr rfl)))))
          | some data => exact Or.inr ⟨hmap, hsel, data, rfl⟩
    · exact Or.inl (fetchSpreadData_unchanged now1 now2 answer s
        (Or.inr (Or.inl (by simpa using hsel))))
  · exact Or.inl (fetchSpreadData_unchanged now1 now2 answer s (Or.inl (by simpa using hmap)))

/-- In every reachable state the tracked list is empty or one centre-point id
followed by one radius-circle id, and every spread layer and source of the map
is tracked. -/
theorem spread_invariant (s : View α) (h : SpreadReachable s) :
    (s.spreadLayers = [] ∨ ∃ t1 t2, s.spreadLayers = [.spreadPoint t1, .spreadArea t2])
      ∧ (∀ id ∈ s.mapLayers, id.isSpread = true → id ∈ s.spreadLayers)
      ∧ (∀ id ∈ s.mapSources, id.isSpread = true → id ∈ s.spreadLayers) := by
  induction h with
  | start s htracked hlayers hsources =>
    refine ⟨Or.inl htracked, fun id hid hsp => ?_, fun id hid hsp => ?_⟩
    · rw [hlayers id hid] at hsp
      cases hsp
    · rw [hsources id hid] at hsp
      cases hsp
  | call s now1 now2 answer _ ih =>
    obtain ⟨hshape, hl, hs⟩ := ih
    rcases fetchSpreadData_cases now1 now2 answer s with ⟨e1, e2, e3⟩ | ⟨hmap, hsel, data, rfl⟩
    · rw [e1, e2, e3]
      exact ⟨hshape, hl, hs⟩
    · have hgoneL : ∀ id ∈ s.mapLayers.filter (fun x => decide (x ∉ s.spreadLayers)),
          id.isSpread = true → False := by
        intro id hid hsp
        rw [List.mem_filter, decide_eq_true_eq] at hid
        exact hid.2 (hl id hid.1 hsp)
      have hgoneS : ∀ id ∈ s.mapSources.filter (fun x => decide (x ∉ s.spreadLayers)),
          id.isSpread = true → False := by
        intro id hid hsp
        rw [List.mem_filter, decide_eq_true_eq] at hid
        exact hid.2 (hs id hid.1 hsp)
      by_cases hdata : (jsTruthy data.latitude && jsTruthy data.longitude) = true
      · rw [fetchSpreadData_drawn now1 now2 data s hmap hsel hdata]
        refine ⟨Or.inr ⟨now1, now2, rfl⟩, fun id hid hsp => ?_, fun id hid hsp => ?_⟩
        · simp only [List.append_assoc, List.mem_append, List.mem_singleton] at hid
          rcases hid with hid | rfl | rfl
          · exact absurd hsp (fun h => hgoneL id hid h)
          · simp
          · simp
        · simp only [List.append_assoc, List.mem_append, List.mem_singleton] at hid
          rcases hid with hid | rfl | rfl
          · exact absurd hsp (fun h => hgoneS id hid h)
          · simp
          · simp
      · rw [fetchSpreadData_no_coordinates now1 now2 data s hmap hsel (by simpa using hdata)]
        exact ⟨Or.inl rfl, fun id hid hsp => absurd hsp (fun h => hgoneL id hid h),
          fun id hid hsp => absurd hsp (fun h => hgoneS id hid h)⟩

/-- C18: in every state reached by any sequence of `fetchSpreadData` calls from
a view with no overlay, the tracked list is empty or exactly one centre-point id
and one radius-circle id, and the map holds no spread layer or source that is
not tracked; and a successful query with coordinates replaces the old set: all
spread layers and sources of before are removed, then the new pair is added and
tracked. -/
theorem C18_at_most_one_overlay (s : View α) (h : SpreadReachable s) :
    (s.spreadLayers = [] ∨ ∃ t1 t2, s.spreadLayers = [.spreadPoint t1, .spreadArea t2])
      ∧ (∀ id ∈ s.mapLayers, id.isSpread = true → id ∈ s.spreadLayers)
      ∧ (∀ id ∈ s.mapSources, id.isSpread = true → id ∈ s.spreadLayers)
      ∧ ∀ (now1 now2 : Nat) (data : SpreadData α), s.mapReady = true →
          s.selectedMarker.isSome = true →
          (jsTruthy data.latitude && jsTruthy data.longitude) = true →
          (fetchSpreadData now1 now2 (.response true (some data)) s).spreadLayers
              = [.spreadPoint now1, .spreadArea now2]
            ∧ (fetchSpreadData now1 now2 (.response true (some data)) s).mapLayers
              = s.mapLayers.filter (fun x => !x.isSpread)
                ++ [.spreadArea now2, .spreadPoint now1]
            ∧ (fetchSpreadData now1 now2 (.response true (some data)) s).mapSources
              = s.mapSources.filter (fun x => !x.isSpread)
                ++ [.spreadPoint now1, .spreadArea now2] := by
  obtain ⟨hshape, hl, hs⟩ := spread_invariant s h
  refine ⟨hshape, hl, hs, ?_⟩
  intro now1 now2 data hmap hsel hdata
  have htracked : ∀ id ∈ s.spreadLayers, id.isSpread = true := by
    intro id hid
    rcases hshape with h0 | ⟨t1, t2, h2⟩
    · rw [h0] at hid
      cases hid
    · rw [h2] at hid
      simp only [List.mem_cons, List.mem_singleton, List.not_mem_nil, or_false] at hid
      rcases hid with rfl | rfl <;> rfl
  have hfilter : ∀ l : List LayerId, (∀ id ∈ l, id.isSpread = true → id ∈ s.spreadLayers) →
      l.filter (fun x => decide (x ∉ s.spreadLayers)) = l.filter (fun x => !x.isSpread) := by
    intro l hin
    apply List.filter_congr
    intro x hx
    cases hsp : x.isSpread with
    | true => simpa using hin x hx hsp
    | false =>
      have hnot : x ∉ s.spreadLayers := fun hmem => by
        rw [htracked x hmem] at hsp
        cases hsp
      simpa using hnot
  rw [fetchSpreadData_drawn now1 now2 data s hmap hsel hdata]
  simp only [hfilter s.mapLayers hl, hfilter s.mapSources hs, List.append_assoc,
    List.singleton_append, and_self]

end SpreadInvariant

/-- C18 (witness): from the loaded view with no overlay, a first successful
query at time 1 draws and tracks one pair; a second one at time 2 then tracks
exactly the pair of time 2. -/
theorem C18_at_most_one_overlay_witness :
    (fetchSpreadData 1 1 (.response true (some bodyWithCoordinates)) readyView).mapReady = true
      ∧ (fetchSpreadData 1 1 (.response true (some bodyWithCoordinates))
          readyView).selectedMarker.isSome = true
      ∧ (jsTruthy bodyWithCoordinates.latitude && jsTruthy bodyWithCoordinates.longitude) = true
      ∧ (fetchSpreadData 2 2 (.response true (some bodyWithCoordinates))
          (fetchSpreadData 1 1 (.response true (some bodyWithCoordinates))
            readyView)).spreadLayers = [.spreadPoint 2, .spreadArea 2] :=
  have htruthy :
      (jsTruthy bodyWithCoordinates.latitude && jsTruthy bodyWithCoordinates.longitude) = true := by
    simp [jsTruthy, bodyWithCoordinates]
  have hfirst := fetchSpreadData_drawn 1 1 bodyWithCoordinates readyView rfl rfl htruthy
  have hmap : (fetchSpreadData 1 1 (.response true (some bodyWithCoordinates))
      readyView).mapReady = true := by
    rw [hfirst]
    rfl
  have hsel : (fetchSpreadData 1 1 (.response true (some bodyWithCoordinates))
      readyView).selectedMarker.isSome = true := by
    rw [hfirst]
    rfl
  ⟨hmap, hsel, htruthy,
    ((C18_at_most_one_overlay _
      (SpreadReachable.call readyView 1 1 (.response true (some bodyWithCoordinates))
        (SpreadReachable.start readyView rfl (fun _ h => nomatch h)
          (fun _ h => nomatch h)))).2.2.2 2 2 bodyWithCoordinates hmap hsel htruthy).1⟩

/-! ## Claims on the wildfire feed -/

/-- C19: when the request throws or the answer is not 2xx, `fetchWildfires`
leaves the view as it was, so the `wildfires` state and the marker data keep
their value, the empty list on first load; on a 2xx answer with an array both
are set to that array. -/
theorem C19_feed_failure_keeps_state {α : Type} (s : View α)
    (body : Option (List (WildfireRecord α))) (data : List (WildfireRecord α)) :
    fetchWildfires .networkError s = s
      ∧ fetchWildfires (.response false body) s = s
      ∧ (fetchWildfires (.response false body) (emptyView α)).wildfires = []
      ∧ (fetchWildfires (.response false body) (emptyView α)).markerData = []
      ∧ (fetchWildfires (.response true (some data)) s).wildfires = data
      ∧ (fetchWildfires (.response true (some data)) s).markerData = data :=
  ⟨rfl, rfl, rfl, rfl, rfl, rfl⟩

/-! ## Claims on the marker selection -/

section SelectionClaims

variable {α : Type} [LinearOrderedField α]

/-- When `moveend` fires after a click, the `handleMoveEnd` of that click is the
last listener called. -/
theorem fireMoveend_markerClick (item : WildfireRecord α) (s : View α) :
    fireMoveend (markerClick item s) =
      handleMoveEnd s.nextListener item
        (s.moveendListeners.foldl runListener (markerClick item s)) := by
  unfold fireMoveend
  have h : (markerClick item s).moveendListeners
      = s.moveendListeners ++ [.openPanel s.nextListener item] := rfl
  rw [h, List.foldl_append]
  rfl

/-- C20: a marker click changes neither the selected marker nor the detail
panel and registers exactly one `moveend` listener; when `moveend` then fires,
the selected marker is the clicked record tagged `markerType` "wildfire", the
panel is shown, and the listener of that click is no longer registered. -/
theorem C20_panel_opens_on_moveend (item : WildfireRecord α) (s : View α) :
    (markerClick item s).selectedMarker = s.selectedMarker
      ∧ (markerClick item s).showPopup = s.showPopup
      ∧ (markerClick item s).moveendListeners
          = s.moveendListeners ++ [.openPanel s.nextListener item]
      ∧ (fireMoveend (markerClick item s)).selectedMarker
          = some { item with markerType := some "wildfire" }
      ∧ (fireMoveend (markerClick item s)).showPopup = true
      ∧ ∀ l ∈ (fireMoveend (markerClick item s)).moveendListeners,
          l.isPanel s.nextListener = false := by
  refine ⟨rfl, rfl, rfl, ?_, ?_, ?_⟩
  · rw [fireMoveend_markerClick]
    rfl
  · rw [fireMoveend_markerClick]
    rfl
  · rw [fireMoveend_markerClick]
    intro l hl
    simp only [handleMoveEnd, List.mem_filter, Bool.not_eq_true'] at hl
    exact hl.2

end SelectionClaims

/-! ## Further lemmas and claims on the risk score -/

section RiskMonotone

variable {α : Type} [LinearOrderedField α] [FloorRing α]

theorem mathRound_mono {x y : α} (h : x ≤ y) : mathRound x ≤ mathRound y := by
  unfold mathRound
  exact Int.floor_mono (by linarith)

/-- The score is at least 40 when the record has no distance and neither the
temperature nor the wind speed is negative. -/
theorem score_ge_40 (loc : CurrentLocation α) (w : WildfireRecord α)
    (hd : w.distance = none) (ht : 0 ≤ w.temperature.getD 0)
    (hv : 0 ≤ w.wind_speed.getD 0) :
    40 ≤ calculateDangerPercentage (some loc) (some w) := by
  rw [calculateDangerPercentage_some, hd]
  have h40 : mathRound ((40 : ℤ) : α) = 40 := mathRound_intCast 40
  rw [← h40]
  apply mathRound_mono
  have h1 : max (0 : α) (100 - (none : Option α).getD 0 * 2) = 100 := by
    simp
  have h2 : (0 : α) ≤ min 100 (w.temperature.getD 0 / 50 * 100) :=
    le_min (by norm_num) (by positivity)
  have h3 : (0 : α) ≤ min 100 (w.wind_speed.getD 0 / 30 * 100) :=
    le_min (by norm_num) (by positivity)
  have h4 : (0 : α) ≤ max 0 (100 - w.humidity.getD 0) := le_max_left _ _
  have h5 : (0 : α) ≤ max 0 (100 - w.clouds.getD 0) := le_max_left _ _
  rw [h1]
  push_cast
  norm_num
  nlinarith

/-- C22: with a known location the score is monotone in each factor, a missing
field counting as 0: of two records that differ in one field only, the one with
the larger distance, humidity or clouds never has the larger score, and the one
with the larger temperature or wind speed never has the smaller score. -/
theorem C22_score_monotone (loc : CurrentLocation α) (w : WildfireRecord α)
    (x y : Option α) (hxy : x.getD 0 ≤ y.getD 0) :
    calculateDangerPercentage (some loc) (some { w with distance := y })
        ≤ calculateDangerPercentage (some loc) (some { w with distance := x })
      ∧ calculateDangerPercentage (some loc) (some { w with humidity := y })
        ≤ calculateDangerPercentage (some loc) (some { w with humidity := x })
      ∧ calculateDangerPercentage (some loc) (some { w with clouds := y })
        ≤ calculateDangerPercentage (some loc) (some { w with clouds := x })
      ∧ calculateDangerPercentage (some loc) (some { w with temperature := x })
        ≤ calculateDangerPercentage (some loc) (some { w with temperature := y })
      ∧ calculateDangerPercentage (some loc) (some { w with wind_speed := x })
        ≤ calculateDangerPercentage (some loc) (some { w with wind_speed := y }) := by
  have hdown : max (0 : α) (100 - y.getD 0) ≤ max 0 (100 - x.getD 0) :=
    max_le_max le_rfl (by linarith)
  have hdist : max (0 : α) (100 - y.getD 0 * 2) ≤ max 0 (100 - x.getD 0 * 2) :=
    max_le_max le_rfl (by linarith)
  have htemp : min (100 : α) (x.getD 0 / 50 * 100) ≤ min 100 (y.getD 0 / 50 * 100) :=
    min_le_min le_rfl (by linarith)
  have hwind : min (100 : α) (x.getD 0 / 30 * 100) ≤ min 100 (y.getD 0 / 30 * 100) :=
    min_le_min le_rfl (by linarith)
  simp only [calculateDangerPercentage_some]
  have h04 : (0 : α) ≤ 0.4 := by norm_num
  have h02 : (0 : α) ≤ 0.2 := by norm_num
  have h01 : (0 : α) ≤ 0.1 := by norm_num
  have e1 := mul_le_mul_of_nonneg_left hdist h04
  have e2 := mul_le_mul_of_nonneg_left hdown h01
  have e3 := mul_le_mul_of_nonneg_left htemp h02
  have e4 := mul_le_mul_of_nonneg_left hwind h02
  refine ⟨mathRound_mono ?_, mathRound_mono ?_, mathRound_mono ?_, mathRound_mono ?_,
    mathRound_mono ?_⟩
  · linarith
  · linarith
  · linarith
  · linarith
  · linarith

end RiskMonotone

/-- C22 (witness): a fire 20 km away never scores more than the same fire 10 km
away. -/
theorem C22_score_monotone_witness :
    (some (10 : ℚ)).getD 0 ≤ (some (20 : ℚ)).getD 0
      ∧ calculateDangerPercentage (some (⟨45, -75⟩ : CurrentLocation ℚ))
          (some { emptyRecord ℚ with distance := some 20 })
        ≤ calculateDangerPercentage (some (⟨45, -75⟩ : CurrentLocation ℚ))
          (some { emptyRecord ℚ with distance := some 10 }) :=
  ⟨by norm_num,
    (C22_score_monotone (⟨45, -75⟩ : CurrentLocation ℚ) (emptyRecord ℚ) (some 10) (some 20)
      (by norm_num)).1⟩

/-! ## Claims on the detail panel -/

/-- A list click on a record whose `location` is an array of length 2 does what
a marker click on that record does. -/
theorem listClick_eq_markerClick {α : Type} (item : WildfireRecord α) (s : View α) (a b : Coord α)
    (h : item.location = .array [a, b]) : listClick item s = markerClick item s := by
  simp [listClick, markerClick, h]

section PanelClaims

variable {α : Type} [LinearOrderedField α] [FloorRing α]

/-- The panel opened by the `moveend` after a click on a record with no
distance, when neither its temperature nor its wind speed is negative. -/
theorem panel_after_click (loc : CurrentLocation α) (item : WildfireRecord α) (s : View α)
    (hd : item.distance = none) (ht : 0 ≤ item.temperature.getD 0)
    (hv : 0 ≤ item.wind_speed.getD 0) :
    (fireMoveend (markerClick item s)).selectedMarker
        = some { item with markerType := some "wildfire" }
      ∧ 40 ≤ calculateDangerPercentage (some loc)
          (fireMoveend (markerClick item s)).selectedMarker
      ∧ markerPopupLabel (some loc) (fireMoveend (markerClick item s)) ≠ some .low := by
  have hsel : (fireMoveend (markerClick item s)).selectedMarker
      = some { item with markerType := some "wildfire" } := by
    rw [fireMoveend_markerClick]
    rfl
  have hshow : (fireMoveend (markerClick item s)).showPopup = true := by
    rw [fireMoveend_markerClick]
    rfl
  have hscore : 40 ≤ calculateDangerPercentage (some loc)
      (some { item with markerType := some "wildfire" }) :=
    score_ge_40 loc _ hd ht hv
  refine ⟨hsel, by rw [hsel]; exact hscore, ?_⟩
  unfold markerPopupLabel
  rw [hsel, hshow]
  simp only [Option.isNone_some, Bool.not_true, Bool.or_self, Bool.false_eq_true, if_false]
  intro h
  have hlabel := Option.some.inj h
  unfold riskLabel at hlabel
  split_ifs at hlabel with h30 h70
  omega

/-- C21: the record selected by a marker click, or by a list click on a record
whose `location` is an array of length 2, is the clicked record with only
`markerType` added; when that record carries no distance and neither its
temperature nor its wind speed is negative, then with a known location its
score is at least 40 and the open panel does not show the "Low risk" label. -/
theorem C21_clicked_record_never_low_risk (loc : CurrentLocation α)
    (item : WildfireRecord α) (s : View α)
    (hd : item.distance = none) (ht : 0 ≤ item.temperature.getD 0)
    (hv : 0 ≤ item.wind_speed.getD 0) :
    ((fireMoveend (markerClick item s)).selectedMarker
          = some { item with markerType := some "wildfire" }
        ∧ 40 ≤ calculateDangerPercentage (some loc)
            (fireMoveend (markerClick item s)).selectedMarker
        ∧ markerPopupLabel (some loc) (fireMoveend (markerClick item s)) ≠ some .low)
      ∧ ∀ a b, item.location = .array [a, b] →
          (fireMoveend (listClick item s)).selectedMarker
              = some { item with markerType := some "wildfire" }
            ∧ 40 ≤ calculateDangerPercentage (some loc)
                (fireMoveend (listClick item s)).selectedMarker
            ∧ markerPopupLabel (some loc) (fireMoveend (listClick item s)) ≠ some .low := by
  refine ⟨panel_after_click loc item s hd ht hv, fun a b h => ?_⟩
  rw [listClick_eq_markerClick item s a b h]
  exact panel_after_click loc item s hd ht hv

end PanelClaims

/-- C21 (witness): a click on the marker of a fire at (50, 50), at 20 °C with no
wind, humidity 100 and clouds 100, seen from (0, 0): the score is at least
40. -/
theorem C21_clicked_record_never_low_risk_witness :
    40 ≤ calculateDangerPercentage (some (⟨0, 0⟩ : CurrentLocation ℚ))
      (fireMoveend (markerClick
        { recordAt (50 : ℚ) 50 with
          temperature := some 20, humidity := some 100, clouds := some 100 }
        sampleView)).selectedMarker :=
  (C21_clicked_record_never_low_risk (⟨0, 0⟩ : CurrentLocation ℚ)
    { recordAt (50 : ℚ) 50 with
      temperature := some 20, humidity := some 100, clouds := some 100 }
    sampleView rfl (by norm_num) (by simp [recordAt, emptyRecord])).1.2.1

/-! ## Further claims on the spread overlay -/

section SpreadZero

variable {α : Type} [LinearOrderedField α]

/-- C23: with the map loaded and a marker selected, a 2xx answer whose latitude
is 0 or whose longitude is 0 is treated as having no coordinates: no layer or
source is added, every tracked overlay layer and source is removed from the map
and the tracked list is left empty; in a state reached by `fetchSpreadData`
calls the map then holds no spread layer or source at all. -/
theorem C23_zero_coordinate_clears_overlay (now1 now2 : Nat) (data : SpreadData α)
    (s : View α) (hmap : s.mapReady = true) (hsel : s.selectedMarker.isSome = true)
    (hzero : data.latitude = some 0 ∨ data.longitude = some 0) :
    (fetchSpreadData now1 now2 (.response true (some data)) s).spreadLayers = []
      ∧ (fetchSpreadData now1 now2 (.response true (some data)) s).mapLayers
          = s.mapLayers.filter (fun x => decide (x ∉ s.spreadLayers))
      ∧ (fetchSpreadData now1 now2 (.response true (some data)) s).mapSources
          = s.mapSources.filter (fun x => decide (x ∉ s.spreadLayers))
      ∧ (∀ id ∈ s.spreadLayers,
          id ∉ (fetchSpreadData now1 now2 (.response true (some data)) s).mapLayers
          ∧ id ∉ (fetchSpreadData now1 now2 (.response true (some data)) s).mapSources)
      ∧ (SpreadReachable s →
          (∀ id ∈ (fetchSpreadData now1 now2 (.response true (some data)) s).mapLayers,
            id.isSpread = false)
          ∧ ∀ id ∈ (fetchSpreadData now1 now2 (.response true (some data)) s).mapSources,
            id.isSpread = false) := by
  have hfalsy : (jsTruthy data.latitude && jsTruthy data.longitude) = false := by
    rcases hzero with h | h <;> simp [h, jsTruthy]
  rw [fetchSpreadData_no_coordinates now1 now2 data s hmap hsel hfalsy]
  refine ⟨rfl, rfl, rfl, ?_, ?_⟩
  · intro id hid
    simp only [List.mem_filter, decide_eq_true_eq, not_and, not_not]
    exact ⟨fun _ => hid, fun _ => hid⟩
  · intro hreach
    obtain ⟨_, hl, hs⟩ := spread_invariant s hreach
    constructor
    · intro id hid
      simp only [List.mem_filter, decide_eq_true_eq] at hid
      cases hsp : id.isSpread with
      | false => rfl
      | true => exact absurd (hl id hid.1 hsp) hid.2
    · intro id hid
      simp only [List.mem_filter, decide_eq_true_eq] at hid
      cases hsp : id.isSpread with
      | false => rfl
      | true => exact absurd (hs id hid.1 hsp) hid.2

end SpreadZero

/-- C23 (witness): on the view with one overlay drawn, an answer for a point on
the equator leaves only the layer and the source of the base style and an empty
tracked list. -/
theorem C23_zero_coordinate_clears_overlay_witness :
    (fetchSpreadData 2 2 (.response true (some bodyOnEquator)) overlayView).spreadLayers = []
      ∧ (fetchSpreadData 2 2 (.response true (some bodyOnEquator)) overlayView).mapLayers
          = [.other "water"]
      ∧ (fetchSpreadData 2 2 (.response true (some bodyOnEquator)) overlayView).mapSources
          = [.other "composite"] :=
  have h := C23_zero_coordinate_clears_overlay 2 2 bodyOnEquator overlayView rfl rfl
    (Or.inl rfl)
  ⟨h.1, h.2.1.trans (by simp [overlayView, emptyView, List.filter]),
    h.2.2.1.trans (by simp [overlayView, emptyView, List.filter])⟩

end Wildfire
